import Mathlib

set_option maxHeartbeats 1000000

/-!
Verification of the `adaptive-card-rs` crate: an in-memory model of
Adaptive Card documents together with its serde-derived JSON codec.

The Rust source (src/card.rs, src/actions.rs, src/inputs.rs, src/common.rs)
defines plain data types whose `Serialize`/`Deserialize` implementations are
generated by serde derive attributes.  This file embeds those types and the
JSON mapping the derive attributes generate:

* JSON values are modelled by `ACard.Json`; objects are ordered association
  lists, so that the serialization event stream (in which serde can emit a
  key twice) is observable, exactly as in the textual output of
  `serde_json::to_string`.
* JSON numbers are modelled by `Rat`.  Rust `u32` fields are embedded as
  `Nat` (decoding enforces the `u32` range as serde does); `f64` fields are
  embedded as the decimal value a JSON number carries, which is exact for
  every finite double.  Non-finite doubles have no JSON representation and
  are outside the model.
* Each `#[serde(tag = "type")]` enum decodes through a scan of the object's
  entries that extracts the discriminant, errors when it is absent or
  duplicated, and dispatches the remaining entries to the variant's struct
  decoder, mirroring serde's internally-tagged deserialization.
* Struct decoders read fields by key lookup; optional (`Option`) fields
  treat an absent key and an explicit `null` both as "no value", as serde
  does; required fields error when absent; unknown keys are ignored.
-/

namespace ACard

/-- JSON values; objects keep their entries as an ordered association list
so duplicate keys are representable, as in serialized text. -/
inductive Json where
  | null : Json
  | bool (b : Bool) : Json
  | num (q : Rat) : Json
  | str (s : String) : Json
  | arr (elems : List Json) : Json
  | obj (entries : List (String × Json)) : Json

/-- Abstract decode error kinds; each corresponds to one family of serde
deserialization errors produced by the derived code. -/
inductive DecodeError where
  /-- the discriminant field of a tagged enum is absent (serde: missing field) -/
  | missingDiscriminant : DecodeError
  /-- the discriminant is present but not in the closed variant table -/
  | unknownVariantTag (tag : String) : DecodeError
  /-- the discriminant field occurs twice in one object (serde: duplicate field) -/
  | duplicateField (key : String) : DecodeError
  /-- a required struct field is absent -/
  | missingField (key : String) : DecodeError
  /-- a field holds a JSON value of the wrong kind -/
  | typeMismatch (key : String) : DecodeError
  /-- a string is not one of an enumeration's closed literal tokens -/
  | invalidEnumLiteral (raw : String) : DecodeError
  /-- no variant of an untagged union matches the raw value -/
  | untaggedMismatch (union : String) : DecodeError
  /-- guard of the explicit recursion-depth bound (spec §4.4/§7); the
  decoder entry points supply a bound strictly dominating the recursion
  depth of their input, so they never produce this error -/
  | recursionTooDeep : DecodeError
deriving DecidableEq

abbrev D (α : Type) := Except DecodeError α

/-- True exactly on the JSON null value. -/
def Json.isNull : Json → Bool
  | .null => true
  | _ => false

/-- Entry emitted for an optional struct field: serde's
`skip_serializing_if = "Option::is_none"` omits the key when the field is
unset and otherwise writes the encoded value. -/
def optE (k : String) (f : α → Json) : Option α → List (String × Json)
  | none => []
  | some a => [(k, f a)]

/-- Decode an optional field from the result of looking its key up: an
absent key or an explicit null is "no value" (serde's `Option` visitor),
any other value goes through the field decoder. -/
def optD (dec : Json → D α) : Option Json → D (Option α)
  | none => .ok none
  | some j => if j.isNull then .ok none else (dec j).map some

/-- Decode a required field from the result of looking its key up. -/
def reqD (k : String) (dec : Json → D α) : Option Json → D α
  | none => .error (.missingField k)
  | some j => dec j

/-- Expect a JSON string (serde `String` deserialization). -/
def asStr (k : String) : Json → D String
  | .str s => .ok s
  | _ => .error (.typeMismatch k)

/-- Expect a JSON boolean (serde `bool` deserialization). -/
def asBool (k : String) : Json → D Bool
  | .bool b => .ok b
  | _ => .error (.typeMismatch k)

/-- Expect a JSON number (serde `f64` deserialization; the model carries
the exact decimal value). -/
def asNum (k : String) : Json → D Rat
  | .num q => .ok q
  | _ => .error (.typeMismatch k)

/-- Expect a JSON number representing a `u32`: a non-negative integer
below `2^32`, as serde's `u32` deserialization enforces. -/
def asU32 (k : String) : Json → D Nat
  | .num q =>
    if q.den = 1 ∧ 0 ≤ q.num ∧ q.num < 4294967296 then .ok q.num.toNat
    else .error (.typeMismatch k)
  | _ => .error (.typeMismatch k)

/-- Expect a JSON array and decode every element in order. -/
def asArr (k : String) (dec : Json → D α) : Json → D (List α)
  | .arr js => js.mapM dec
  | _ => .error (.typeMismatch k)

/-- Lookup of a key in the entry list produced by `optE`, same key. -/
theorem lookup_optE_self (k : String) (f : α → Json) (v : Option α)
    (rest : List (String × Json)) :
    List.lookup k (optE k f v ++ rest) = (v.map f).or (List.lookup k rest) := by
  cases v <;> simp [optE, List.lookup, Option.or]

/-- Lookup of a key in the entry list produced by `optE`, different key. -/
theorem lookup_optE_ne {k k' : String} (h : k ≠ k') (f : α → Json) (v : Option α)
    (rest : List (String × Json)) :
    List.lookup k (optE k' f v ++ rest) = List.lookup k rest := by
  cases v <;> simp [optE, List.lookup, beq_eq_false_iff_ne.mpr h]

/-- Lookup at a cons cell with the same key. -/
theorem lookup_cons_self (k : String) (j : Json) (rest : List (String × Json)) :
    List.lookup k ((k, j) :: rest) = some j := by
  simp [List.lookup]

/-- Lookup at a cons cell with a different key. -/
theorem lookup_cons_ne {k k' : String} (h : k ≠ k') (j : Json)
    (rest : List (String × Json)) :
    List.lookup k ((k', j) :: rest) = List.lookup k rest := by
  simp [List.lookup, beq_eq_false_iff_ne.mpr h]

/-- Round trip for an optional field decoded by a correct field decoder:
encoding never produces `null`, so decoding recovers the value. -/
theorem optD_roundtrip {dec : Json → D α} {f : α → Json}
    (h : ∀ a, dec (f a) = .ok a) (hn : ∀ a, (f a).isNull = false) (v : Option α) :
    optD dec (v.map f) = .ok v := by
  cases v with
  | none => rfl
  | some a => simp [optD, hn a, h a, Except.map]

/-- Decoding an optional field whose key carries an explicit null yields
"no value". -/
theorem optD_null (dec : Json → D α) : optD dec (some .null) = .ok none := by
  rfl

/-- Decoding an optional field whose key is absent yields "no value". -/
theorem optD_none (dec : Json → D α) : optD dec none = .ok none := by
  rfl

end ACard

namespace ACard

/-! Enumerated literal types (src/common.rs, src/card.rs).  Every enum
below carries `#[serde(rename_all = "camelCase")]` in the source except
`AssociatedInputs`, whose variants therefore keep their Rust names
("Auto", "None") on the wire. -/

/-- Version tokens of the root document (explicit serde renames). -/
inductive Version where
  | V1_0 | V1_1 | V1_2 | V1_3 | V1_4 | V1_5 | V1_6
deriving DecidableEq

def Version.token : Version → String
  | .V1_0 => "1.0"
  | .V1_1 => "1.1"
  | .V1_2 => "1.2"
  | .V1_3 => "1.3"
  | .V1_4 => "1.4"
  | .V1_5 => "1.5"
  | .V1_6 => "1.6"

def decodeVersion : Json → D Version
  | .str "1.0" => .ok .V1_0
  | .str "1.1" => .ok .V1_1
  | .str "1.2" => .ok .V1_2
  | .str "1.3" => .ok .V1_3
  | .str "1.4" => .ok .V1_4
  | .str "1.5" => .ok .V1_5
  | .str "1.6" => .ok .V1_6
  | .str s => .error (.invalidEnumLiteral s)
  | _ => .error (.typeMismatch "Version")

inductive TextSize where
  | Small | Default | Medium | Large | ExtraLarge
deriving DecidableEq

def TextSize.token : TextSize → String
  | .Small => "small"
  | .Default => "default"
  | .Medium => "medium"
  | .Large => "large"
  | .ExtraLarge => "extraLarge"

def decodeTextSize : Json → D TextSize
  | .str "small" => .ok .Small
  | .str "default" => .ok .Default
  | .str "medium" => .ok .Medium
  | .str "large" => .ok .Large
  | .str "extraLarge" => .ok .ExtraLarge
  | .str s => .error (.invalidEnumLiteral s)
  | _ => .error (.typeMismatch "TextSize")

inductive TextWeight where
  | Lighter | Default | Bolder
deriving DecidableEq

def TextWeight.token : TextWeight → String
  | .Lighter => "lighter"
  | .Default => "default"
  | .Bolder => "bolder"

def decodeTextWeight : Json → D TextWeight
  | .str "lighter" => .ok .Lighter
  | .str "default" => .ok .Default
  | .str "bolder" => .ok .Bolder
  | .str s => .error (.invalidEnumLiteral s)
  | _ => .error (.typeMismatch "TextWeight")

inductive ContainerStyle where
  | Default | Emphasis | Good | Attention | Warning | Accent
deriving DecidableEq

def ContainerStyle.token : ContainerStyle → String
  | .Default => "default"
  | .Emphasis => "emphasis"
  | .Good => "good"
  | .Attention => "attention"
  | .Warning => "warning"
  | .Accent => "accent"

def decodeContainerStyle : Json → D ContainerStyle
  | .str "default" => .ok .Default
  | .str "emphasis" => .ok .Emphasis
  | .str "good" => .ok .Good
  | .str "attention" => .ok .Attention
  | .str "warning" => .ok .Warning
  | .str "accent" => .ok .Accent
  | .str s => .error (.invalidEnumLiteral s)
  | _ => .error (.typeMismatch "ContainerStyle")

inductive Spacing where
  | None | Small | Default | Medium | Large | ExtraLarge | Padding
deriving DecidableEq

def Spacing.token : Spacing → String
  | .None => "none"
  | .Small => "small"
  | .Default => "default"
  | .Medium => "medium"
  | .Large => "large"
  | .ExtraLarge => "extraLarge"
  | .Padding => "padding"

def decodeSpacing : Json → D Spacing
  | .str "none" => .ok .None
  | .str "small" => .ok .Small
  | .str "default" => .ok .Default
  | .str "medium" => .ok .Medium
  | .str "large" => .ok .Large
  | .str "extraLarge" => .ok .ExtraLarge
  | .str "padding" => .ok .Padding
  | .str s => .error (.invalidEnumLiteral s)
  | _ => .error (.typeMismatch "Spacing")

inductive ImageSize where
  | Auto | Stretch | Small | Medium | Large
deriving DecidableEq

def ImageSize.token : ImageSize → String
  | .Auto => "auto"
  | .Stretch => "stretch"
  | .Small => "small"
  | .Medium => "medium"
  | .Large => "large"

def decodeImageSize : Json → D ImageSize
  | .str "auto" => .ok .Auto
  | .str "stretch" => .ok .Stretch
  | .str "small" => .ok .Small
  | .str "medium" => .ok .Medium
  | .str "large" => .ok .Large
  | .str s => .error (.invalidEnumLiteral s)
  | _ => .error (.typeMismatch "ImageSize")

inductive Color where
  | Default | Dark | Light | Accent | Good | Warning | Attention
deriving DecidableEq

def Color.token : Color → String
  | .Default => "default"
  | .Dark => "dark"
  | .Light => "light"
  | .Accent => "accent"
  | .Good => "good"
  | .Warning => "warning"
  | .Attention => "attention"

def decodeColor : Json → D Color
  | .str "default" => .ok .Default
  | .str "dark" => .ok .Dark
  | .str "light" => .ok .Light
  | .str "accent" => .ok .Accent
  | .str "good" => .ok .Good
  | .str "warning" => .ok .Warning
  | .str "attention" => .ok .Attention
  | .str s => .error (.invalidEnumLiteral s)
  | _ => .error (.typeMismatch "Color")

inductive HorizontalAlignment where
  | Left | Center | Right
deriving DecidableEq

def HorizontalAlignment.token : HorizontalAlignment → String
  | .Left => "left"
  | .Center => "center"
  | .Right => "right"

def decodeHorizontalAlignment : Json → D HorizontalAlignment
  | .str "left" => .ok .Left
  | .str "center" => .ok .Center
  | .str "right" => .ok .Right
  | .str s => .error (.invalidEnumLiteral s)
  | _ => .error (.typeMismatch "HorizontalAlignment")

inductive VerticalContentAlignment where
  | Top | Center | Bottom
deriving DecidableEq

def VerticalContentAlignment.token : VerticalContentAlignment → String
  | .Top => "top"
  | .Center => "center"
  | .Bottom => "bottom"

def decodeVerticalContentAlignment : Json → D VerticalContentAlignment
  | .str "top" => .ok .Top
  | .str "center" => .ok .Center
  | .str "bottom" => .ok .Bottom
  | .str s => .error (.invalidEnumLiteral s)
  | _ => .error (.typeMismatch "VerticalContentAlignment")

inductive Height where
  | Auto | Stretch
deriving DecidableEq

def Height.token : Height → String
  | .Auto => "auto"
  | .Stretch => "stretch"

def decodeHeight : Json → D Height
  | .str "auto" => .ok .Auto
  | .str "stretch" => .ok .Stretch
  | .str s => .error (.invalidEnumLiteral s)
  | _ => .error (.typeMismatch "Height")

inductive FontType where
  | Default | Monospace
deriving DecidableEq

def FontType.token : FontType → String
  | .Default => "default"
  | .Monospace => "monospace"

def decodeFontType : Json → D FontType
  | .str "default" => .ok .Default
  | .str "monospace" => .ok .Monospace
  | .str s => .error (.invalidEnumLiteral s)
  | _ => .error (.typeMismatch "FontType")

inductive ActionStyle where
  | Default | Positive | Destructive
deriving DecidableEq

def ActionStyle.token : ActionStyle → String
  | .Default => "default"
  | .Positive => "positive"
  | .Destructive => "destructive"

def decodeActionStyle : Json → D ActionStyle
  | .str "default" => .ok .Default
  | .str "positive" => .ok .Positive
  | .str "destructive" => .ok .Destructive
  | .str s => .error (.invalidEnumLiteral s)
  | _ => .error (.typeMismatch "ActionStyle")

inductive ActionMode where
  | Primary | Secondary
deriving DecidableEq

def ActionMode.token : ActionMode → String
  | .Primary => "primary"
  | .Secondary => "secondary"

def decodeActionMode : Json → D ActionMode
  | .str "primary" => .ok .Primary
  | .str "secondary" => .ok .Secondary
  | .str s => .error (.invalidEnumLiteral s)
  | _ => .error (.typeMismatch "ActionMode")

/-- Tokens of `AssociatedInputs` keep the Rust variant spelling because the
source enum has no `rename_all` attribute. -/
inductive AssociatedInputs where
  | Auto | None
deriving DecidableEq

def AssociatedInputs.token : AssociatedInputs → String
  | .Auto => "Auto"
  | .None => "None"

def decodeAssociatedInputs : Json → D AssociatedInputs
  | .str "Auto" => .ok .Auto
  | .str "None" => .ok .None
  | .str s => .error (.invalidEnumLiteral s)
  | _ => .error (.typeMismatch "AssociatedInputs")

inductive TextInputStyle where
  | Text | Tel | Url | Email | Password
deriving DecidableEq

def TextInputStyle.token : TextInputStyle → String
  | .Text => "text"
  | .Tel => "tel"
  | .Url => "url"
  | .Email => "email"
  | .Password => "password"

def decodeTextInputStyle : Json → D TextInputStyle
  | .str "text" => .ok .Text
  | .str "tel" => .ok .Tel
  | .str "url" => .ok .Url
  | .str "email" => .ok .Email
  | .str "password" => .ok .Password
  | .str s => .error (.invalidEnumLiteral s)
  | _ => .error (.typeMismatch "TextInputStyle")

inductive ChoiceInputStyle where
  | Compact | Expanded | Filtered
deriving DecidableEq

def ChoiceInputStyle.token : ChoiceInputStyle → String
  | .Compact => "compact"
  | .Expanded => "expanded"
  | .Filtered => "filtered"

def decodeChoiceInputStyle : Json → D ChoiceInputStyle
  | .str "compact" => .ok .Compact
  | .str "expanded" => .ok .Expanded
  | .str "filtered" => .ok .Filtered
  | .str s => .error (.invalidEnumLiteral s)
  | _ => .error (.typeMismatch "ChoiceInputStyle")

/-- Platform-width hint for Microsoft Teams (`MsTeamsWidth` in src/card.rs). -/
inductive MsTeamsWidth where
  | Full
deriving DecidableEq

def MsTeamsWidth.token : MsTeamsWidth → String
  | .Full => "full"

def decodeMsTeamsWidth : Json → D MsTeamsWidth
  | .str "full" => .ok .Full
  | .str s => .error (.invalidEnumLiteral s)
  | _ => .error (.typeMismatch "MsTeamsWidth")

end ACard

namespace ACard

/-- Whether an entry list contains a given key. -/
def hasKey (k : String) (l : List (String × Json)) : Bool :=
  l.any (fun p => p.1 == k)

/-- Number of occurrences of a key in an entry list. -/
def countKey (k : String) (l : List (String × Json)) : Nat :=
  l.countP (fun p => p.1 == k)

theorem hasKey_append (k : String) (l₁ l₂ : List (String × Json)) :
    hasKey k (l₁ ++ l₂) = (hasKey k l₁ || hasKey k l₂) := by
  simp [hasKey]

theorem hasKey_optE (k k' : String) (f : α → Json) (v : Option α) :
    hasKey k (optE k' f v) = (v.isSome && (k' == k)) := by
  cases v <;> simp [hasKey, optE]

theorem hasKey_cons (k k' : String) (j : Json) (l : List (String × Json)) :
    hasKey k ((k', j) :: l) = ((k' == k) || hasKey k l) := by
  simp [hasKey]

theorem hasKey_nil (k : String) : hasKey k [] = false := rfl

theorem countKey_append (k : String) (l₁ l₂ : List (String × Json)) :
    countKey k (l₁ ++ l₂) = countKey k l₁ + countKey k l₂ := by
  simp [countKey, List.countP_append]

theorem countKey_optE (k k' : String) (f : α → Json) (v : Option α) :
    countKey k (optE k' f v) = if v.isSome ∧ k' = k then 1 else 0 := by
  cases v with
  | none => simp [countKey, optE]
  | some a =>
    by_cases h : k' = k <;> simp [countKey, optE, List.countP_cons, h]

theorem countKey_cons (k k' : String) (j : Json) (l : List (String × Json)) :
    countKey k ((k', j) :: l) = countKey k l + if k' = k then 1 else 0 := by
  simp [countKey, List.countP_cons]

/-- A single lookup lemma over an optional-field chunk. -/
theorem lookup_optE (k k' : String) (f : α → Json) (v : Option α)
    (rest : List (String × Json)) :
    List.lookup k (optE k' f v ++ rest) =
      if k = k' then (v.map f).or (List.lookup k rest) else List.lookup k rest := by
  split
  · next h => subst h; exact lookup_optE_self k f v rest
  · next h => exact lookup_optE_ne h f v rest

/-- Lookup over a trailing optional-field chunk. -/
theorem lookup_optE_last (k k' : String) (f : α → Json) (v : Option α) :
    List.lookup k (optE k' f v) = if k = k' then v.map f else none := by
  have := lookup_optE k k' f v []
  simpa using this

/-- A single lookup lemma at a cons cell. -/
theorem lookup_cons (k k' : String) (j : Json) (rest : List (String × Json)) :
    List.lookup k ((k', j) :: rest) =
      if k = k' then some j else List.lookup k rest := by
  split
  · next h => subst h; exact lookup_cons_self k j rest
  · next h => exact lookup_cons_ne h j rest

/-! The `TextBlock` node (src/card.rs, `rename_all = "camelCase"`); `text`
is the one required field, all others are optional and skipped when unset. -/

structure TextBlock where
  text : String
  size : Option TextSize
  weight : Option TextWeight
  wrap : Option Bool
  is_subtle : Option Bool
  color : Option Color
  horizontal_alignment : Option HorizontalAlignment
  max_lines : Option Nat
  font_type : Option FontType
  id : Option String
  separator : Option Bool
  spacing : Option Spacing
  height : Option Height
  is_visible : Option Bool
deriving DecidableEq

/-- Default `TextBlock` (derived `Default`: empty text, all options unset). -/
def TextBlock.default : TextBlock :=
  ⟨"", none, none, none, none, none, none, none, none, none, none, none, none, none⟩

def encodeTextBlock (tb : TextBlock) : List (String × Json) :=
  ("text", .str tb.text) ::
    (optE "size" (fun v => .str v.token) tb.size ++
     optE "weight" (fun v => .str v.token) tb.weight ++
     optE "wrap" .bool tb.wrap ++
     optE "isSubtle" .bool tb.is_subtle ++
     optE "color" (fun v => .str v.token) tb.color ++
     optE "horizontalAlignment" (fun v => .str v.token) tb.horizontal_alignment ++
     optE "maxLines" (fun n => .num n) tb.max_lines ++
     optE "fontType" (fun v => .str v.token) tb.font_type ++
     optE "id" .str tb.id ++
     optE "separator" .bool tb.separator ++
     optE "spacing" (fun v => .str v.token) tb.spacing ++
     optE "height" (fun v => .str v.token) tb.height ++
     optE "isVisible" .bool tb.is_visible)

def decodeTextBlock (o : List (String × Json)) : D TextBlock := do
  let text ← reqD "text" (asStr "text") (o.lookup "text")
  let size ← optD decodeTextSize (o.lookup "size")
  let weight ← optD decodeTextWeight (o.lookup "weight")
  let wrap ← optD (asBool "wrap") (o.lookup "wrap")
  let is_subtle ← optD (asBool "isSubtle") (o.lookup "isSubtle")
  let color ← optD decodeColor (o.lookup "color")
  let horizontal_alignment ← optD decodeHorizontalAlignment (o.lookup "horizontalAlignment")
  let max_lines ← optD (asU32 "maxLines") (o.lookup "maxLines")
  let font_type ← optD decodeFontType (o.lookup "fontType")
  let id ← optD (asStr "id") (o.lookup "id")
  let separator ← optD (asBool "separator") (o.lookup "separator")
  let spacing ← optD decodeSpacing (o.lookup "spacing")
  let height ← optD decodeHeight (o.lookup "height")
  let is_visible ← optD (asBool "isVisible") (o.lookup "isVisible")
  return ⟨text, size, weight, wrap, is_subtle, color, horizontal_alignment,
    max_lines, font_type, id, separator, spacing, height, is_visible⟩

theorem decode_token_textSize (v : TextSize) : decodeTextSize (.str v.token) = .ok v := by
  cases v <;> rfl

theorem decode_token_textWeight (v : TextWeight) : decodeTextWeight (.str v.token) = .ok v := by
  cases v <;> rfl

theorem decode_token_color (v : Color) : decodeColor (.str v.token) = .ok v := by
  cases v <;> rfl

theorem decode_token_horizontalAlignment (v : HorizontalAlignment) :
    decodeHorizontalAlignment (.str v.token) = .ok v := by
  cases v <;> rfl

theorem decode_token_fontType (v : FontType) : decodeFontType (.str v.token) = .ok v := by
  cases v <;> rfl

theorem decode_token_spacing (v : Spacing) : decodeSpacing (.str v.token) = .ok v := by
  cases v <;> rfl

theorem decode_token_height (v : Height) : decodeHeight (.str v.token) = .ok v := by
  cases v <;> rfl

/-- Representability bound that Rust's `u32` type enforces statically. -/
def u32Ok : Option Nat → Bool
  | none => true
  | some n => n < 4294967296

theorem asU32_roundtrip {n : Nat} (h : n < 4294967296) (k : String) :
    asU32 k (.num n) = .ok n := by
  have hc : ((n : Rat)).den = 1 ∧ 0 ≤ ((n : Rat)).num ∧ ((n : Rat)).num < 4294967296 := by
    refine ⟨Rat.den_natCast n, ?_, ?_⟩
    · rw [Rat.num_natCast]; exact Int.natCast_nonneg n
    · rw [Rat.num_natCast]; exact_mod_cast h
  simp only [asU32]
  rw [if_pos hc, Rat.num_natCast, Int.toNat_natCast]

theorem optD_u32_roundtrip {v : Option Nat} (h : u32Ok v = true) (k : String) :
    optD (asU32 k) (v.map (fun n => Json.num n)) = .ok v := by
  cases v with
  | none => rfl
  | some n =>
    simp only [u32Ok, decide_eq_true_eq] at h
    show optD (asU32 k) (some (Json.num n)) = .ok (some n)
    simp only [optD, Json.isNull]
    rw [if_neg (by simp), asU32_roundtrip h]
    rfl

theorem optD_u32_roundtrip_bind {v : Option Nat} (h : u32Ok v = true) (k : String) :
    optD (asU32 k) (v.bind fun n => some (Json.num n)) = .ok v := by
  have hb : (v.bind fun n => some (Json.num n)) = v.map (fun n => Json.num n) := by
    cases v <;> rfl
  rw [hb]; exact optD_u32_roundtrip h k

theorem optD_asBool (k : String) (v : Option Bool) :
    optD (asBool k) (v.map .bool) = .ok v := by
  cases v <;> rfl

theorem optD_asStr (k : String) (v : Option String) :
    optD (asStr k) (v.map .str) = .ok v := by
  cases v <;> rfl

theorem optD_asNum (k : String) (v : Option Rat) :
    optD (asNum k) (v.map .num) = .ok v := by
  cases v <;> rfl

/-- Round trip for an optional enumeration field whose decoder inverts the
token function. -/
theorem optD_token {X : Type} {dec : Json → D X} {tok : X → String}
    (h : ∀ a, dec (.str (tok a)) = .ok a) (v : Option X) :
    optD dec (v.map (fun a => .str (tok a))) = .ok v := by
  cases v with
  | none => rfl
  | some a => simp [optD, Json.isNull, h a, Except.map]

theorem decode_encode_textBlock (tb : TextBlock)
    (h : u32Ok tb.max_lines = true) :
    decodeTextBlock (encodeTextBlock tb) = .ok tb := by
  simp [decodeTextBlock, encodeTextBlock, lookup_cons, lookup_optE, lookup_optE_last,
    reqD, asStr, optD_u32_roundtrip h, optD_u32_roundtrip_bind h, optD_asBool, optD_asStr,
    optD_token decode_token_textSize, optD_token decode_token_textWeight,
    optD_token decode_token_color, optD_token decode_token_horizontalAlignment,
    optD_token decode_token_fontType, optD_token decode_token_spacing,
    optD_token decode_token_height]
  rfl

end ACard

namespace ACard

theorem decode_token_imageSize (v : ImageSize) : decodeImageSize (.str v.token) = .ok v := by
  cases v <;> rfl

theorem decode_token_verticalContentAlignment (v : VerticalContentAlignment) :
    decodeVerticalContentAlignment (.str v.token) = .ok v := by
  cases v <;> rfl

theorem decode_token_actionStyle (v : ActionStyle) :
    decodeActionStyle (.str v.token) = .ok v := by
  cases v <;> rfl

theorem decode_token_actionMode (v : ActionMode) :
    decodeActionMode (.str v.token) = .ok v := by
  cases v <;> rfl

theorem decode_token_associatedInputs (v : AssociatedInputs) :
    decodeAssociatedInputs (.str v.token) = .ok v := by
  cases v <;> rfl

theorem decode_token_textInputStyle (v : TextInputStyle) :
    decodeTextInputStyle (.str v.token) = .ok v := by
  cases v <;> rfl

theorem decode_token_choiceInputStyle (v : ChoiceInputStyle) :
    decodeChoiceInputStyle (.str v.token) = .ok v := by
  cases v <;> rfl

theorem decode_token_msTeamsWidth (v : MsTeamsWidth) :
    decodeMsTeamsWidth (.str v.token) = .ok v := by
  cases v
  rfl

theorem decode_token_version (v : Version) : decodeVersion (.str v.token) = .ok v := by
  cases v <;> rfl

/-- Decoding each element of an encoded list recovers the list. -/
theorem mapM_map_roundtrip {dec : Json → D α} {f : α → Json}
    (h : ∀ a, dec (f a) = .ok a) (l : List α) :
    (l.map f).mapM dec = .ok l := by
  induction l with
  | nil => rfl
  | cons a t ih =>
    rw [List.map_cons, List.mapM_cons, h a, ih]
    rfl

/-- Decoding an encoded array field recovers the element list. -/
theorem asArr_map_roundtrip (k : String) {dec : Json → D α} {f : α → Json}
    (h : ∀ a, dec (f a) = .ok a) (l : List α) :
    asArr k dec (.arr (l.map f)) = .ok l := by
  simp only [asArr]
  exact mapM_map_roundtrip h l

/-! The `TextRun` inline element and the untagged `Inline` union
(src/card.rs).  An `Inline` serializes either as a bare string or as the
`TextRun` object; untagged deserialization tries the string variant first,
so any JSON string decodes as plain text and any object is handed to the
`TextRun` field decoder. -/

structure TextRun where
  type_field : String
  text : String
  color : Option Color
  font_type : Option FontType
  highlight : Option Bool
  is_subtle : Option Bool
  italic : Option Bool
  size : Option TextSize
  strikethrough : Option Bool
  weight : Option TextWeight
deriving DecidableEq

def encodeTextRun (tr : TextRun) : List (String × Json) :=
  ("type", .str tr.type_field) ::
    ("text", .str tr.text) ::
    (optE "color" (fun v => .str v.token) tr.color ++
     optE "fontType" (fun v => .str v.token) tr.font_type ++
     optE "highlight" .bool tr.highlight ++
     optE "isSubtle" .bool tr.is_subtle ++
     optE "italic" .bool tr.italic ++
     optE "size" (fun v => .str v.token) tr.size ++
     optE "strikethrough" .bool tr.strikethrough ++
     optE "weight" (fun v => .str v.token) tr.weight)

def decodeTextRun (o : List (String × Json)) : D TextRun := do
  let type_field ← reqD "type" (asStr "type") (o.lookup "type")
  let text ← reqD "text" (asStr "text") (o.lookup "text")
  let color ← optD decodeColor (o.lookup "color")
  let font_type ← optD decodeFontType (o.lookup "fontType")
  let highlight ← optD (asBool "highlight") (o.lookup "highlight")
  let is_subtle ← optD (asBool "isSubtle") (o.lookup "isSubtle")
  let italic ← optD (asBool "italic") (o.lookup "italic")
  let size ← optD decodeTextSize (o.lookup "size")
  let strikethrough ← optD (asBool "strikethrough") (o.lookup "strikethrough")
  let weight ← optD decodeTextWeight (o.lookup "weight")
  return ⟨type_field, text, color, font_type, highlight, is_subtle, italic,
    size, strikethrough, weight⟩

theorem decode_encode_textRun (tr : TextRun) :
    decodeTextRun (encodeTextRun tr) = .ok tr := by
  simp [decodeTextRun, encodeTextRun, lookup_cons, lookup_optE, lookup_optE_last,
    reqD, asStr, optD_asBool,
    optD_token decode_token_color, optD_token decode_token_fontType,
    optD_token decode_token_textSize, optD_token decode_token_textWeight]
  rfl

inductive Inline where
  | Text (s : String)
  | TextRun (tr : TextRun)
deriving DecidableEq

def encodeInline : Inline → Json
  | .Text s => .str s
  | .TextRun tr => .obj (encodeTextRun tr)

def decodeInline : Json → D Inline
  | .str s => .ok (.Text s)
  | .obj o =>
    match decodeTextRun o with
    | .ok tr => .ok (.TextRun tr)
    | .error _ => .error (.untaggedMismatch "Inline")
  | _ => .error (.untaggedMismatch "Inline")

theorem decode_encode_inline (i : Inline) :
    decodeInline (encodeInline i) = .ok i := by
  cases i with
  | Text s => rfl
  | TextRun tr => simp [encodeInline, decodeInline, decode_encode_textRun tr]

structure RichTextBlock where
  inlines : List Inline
  horizontal_alignment : Option HorizontalAlignment
  id : Option String
  separator : Option Bool
  spacing : Option Spacing
  height : Option Height
  is_visible : Option Bool
deriving DecidableEq

def encodeRichTextBlock (r : RichTextBlock) : List (String × Json) :=
  ("inlines", .arr (r.inlines.map encodeInline)) ::
    (optE "horizontalAlignment" (fun v => .str v.token) r.horizontal_alignment ++
     optE "id" .str r.id ++
     optE "separator" .bool r.separator ++
     optE "spacing" (fun v => .str v.token) r.spacing ++
     optE "height" (fun v => .str v.token) r.height ++
     optE "isVisible" .bool r.is_visible)

def decodeRichTextBlock (o : List (String × Json)) : D RichTextBlock := do
  let inlines ← reqD "inlines" (asArr "inlines" decodeInline) (o.lookup "inlines")
  let horizontal_alignment ← optD decodeHorizontalAlignment (o.lookup "horizontalAlignment")
  let id ← optD (asStr "id") (o.lookup "id")
  let separator ← optD (asBool "separator") (o.lookup "separator")
  let spacing ← optD decodeSpacing (o.lookup "spacing")
  let height ← optD decodeHeight (o.lookup "height")
  let is_visible ← optD (asBool "isVisible") (o.lookup "isVisible")
  return ⟨inlines, horizontal_alignment, id, separator, spacing, height, is_visible⟩

theorem decode_encode_richTextBlock (r : RichTextBlock) :
    decodeRichTextBlock (encodeRichTextBlock r) = .ok r := by
  simp [decodeRichTextBlock, encodeRichTextBlock, lookup_cons, lookup_optE,
    lookup_optE_last, reqD, asStr, optD_asBool, optD_asStr,
    asArr_map_roundtrip "inlines" decode_encode_inline,
    optD_token decode_token_horizontalAlignment, optD_token decode_token_spacing,
    optD_token decode_token_height]
  rfl

structure Fact where
  title : String
  value : String
deriving DecidableEq

def encodeFact (f : Fact) : List (String × Json) :=
  [("title", .str f.title), ("value", .str f.value)]

def decodeFactJ : Json → D Fact
  | .obj o => do
    let title ← reqD "title" (asStr "title") (o.lookup "title")
    let value ← reqD "value" (asStr "value") (o.lookup "value")
    return ⟨title, value⟩
  | _ => .error (.typeMismatch "Fact")

theorem decode_encode_fact (f : Fact) : decodeFactJ (.obj (encodeFact f)) = .ok f := by
  rfl

structure FactSet where
  facts : List Fact
deriving DecidableEq

def encodeFactSet (fs : FactSet) : List (String × Json) :=
  [("facts", .arr (fs.facts.map (fun f => .obj (encodeFact f))))]

def decodeFactSet (o : List (String × Json)) : D FactSet := do
  let facts ← reqD "facts" (asArr "facts" decodeFactJ) (o.lookup "facts")
  return ⟨facts⟩

theorem decode_encode_factSet (fs : FactSet) :
    decodeFactSet (encodeFactSet fs) = .ok fs := by
  simp [decodeFactSet, encodeFactSet, lookup_cons, reqD,
    asArr_map_roundtrip "facts" decode_encode_fact]

structure MsTeams where
  width : Option MsTeamsWidth
deriving DecidableEq

def encodeMsTeams (m : MsTeams) : List (String × Json) :=
  optE "width" (fun v => .str v.token) m.width

def decodeMsTeamsJ : Json → D MsTeams
  | .obj o => do
    let width ← optD decodeMsTeamsWidth (o.lookup "width")
    return ⟨width⟩
  | _ => .error (.typeMismatch "msteams")

theorem decode_encode_msTeams (m : MsTeams) :
    decodeMsTeamsJ (.obj (encodeMsTeams m)) = .ok m := by
  simp [decodeMsTeamsJ, encodeMsTeams, lookup_optE_last,
    optD_token decode_token_msTeamsWidth]

/-! The `ColumnWidth` value (src/card.rs): a transparent wrapper around the
untagged `ColumnWidthKind`.  Note that in the source the `stretch()` and
`pixels(px)` constructors build the `Auto` variant, and untagged decoding
tries `Auto(String)` first, so every JSON string decodes to `Auto`; only a
`u32`-ranged JSON number reaches `Relative`. -/

inductive ColumnWidthKind where
  | Auto (s : String)
  | Stretch (s : String)
  | Pixel (s : String)
  | Relative (w : Nat)
deriving DecidableEq

structure ColumnWidth where
  kind : ColumnWidthKind
deriving DecidableEq

def ColumnWidth.auto : ColumnWidth := ⟨.Auto "auto"⟩

def ColumnWidth.stretch : ColumnWidth := ⟨.Auto "stretch"⟩

def ColumnWidth.pixels (px : Nat) : ColumnWidth := ⟨.Auto (toString px ++ "px")⟩

def ColumnWidth.weight (w : Nat) : ColumnWidth := ⟨.Relative w⟩

def encodeColumnWidth (w : ColumnWidth) : Json :=
  match w.kind with
  | .Auto s => .str s
  | .Stretch s => .str s
  | .Pixel s => .str s
  | .Relative n => .num n

def decodeColumnWidth : Json → D ColumnWidth
  | .str s => .ok ⟨.Auto s⟩
  | .num q =>
    if q.den = 1 ∧ 0 ≤ q.num ∧ q.num < 4294967296 then .ok ⟨.Relative q.num.toNat⟩
    else .error (.untaggedMismatch "ColumnWidthKind")
  | _ => .error (.untaggedMismatch "ColumnWidthKind")

end ACard

namespace ACard

/-! Input elements (src/inputs.rs); all share `rename_all = "camelCase"`. -/

structure InputText where
  id : String
  is_multiline : Option Bool
  max_length : Option Nat
  placeholder : Option String
  regex : Option String
  style : Option TextInputStyle
  value : Option String
  label : Option String
  is_required : Option Bool
  error_message : Option String
  separator : Option Bool
  spacing : Option Spacing
  height : Option Height
  is_visible : Option Bool
deriving DecidableEq

def encodeInputText (x : InputText) : List (String × Json) :=
  ("id", .str x.id) ::
    (optE "isMultiline" .bool x.is_multiline ++
     optE "maxLength" (fun n => .num n) x.max_length ++
     optE "placeholder" .str x.placeholder ++
     optE "regex" .str x.regex ++
     optE "style" (fun v => .str v.token) x.style ++
     optE "value" .str x.value ++
     optE "label" .str x.label ++
     optE "isRequired" .bool x.is_required ++
     optE "errorMessage" .str x.error_message ++
     optE "separator" .bool x.separator ++
     optE "spacing" (fun v => .str v.token) x.spacing ++
     optE "height" (fun v => .str v.token) x.height ++
     optE "isVisible" .bool x.is_visible)

def decodeInputText (o : List (String × Json)) : D InputText := do
  let id ← reqD "id" (asStr "id") (o.lookup "id")
  let is_multiline ← optD (asBool "isMultiline") (o.lookup "isMultiline")
  let max_length ← optD (asU32 "maxLength") (o.lookup "maxLength")
  let placeholder ← optD (asStr "placeholder") (o.lookup "placeholder")
  let regex ← optD (asStr "regex") (o.lookup "regex")
  let style ← optD decodeTextInputStyle (o.lookup "style")
  let value ← optD (asStr "value") (o.lookup "value")
  let label ← optD (asStr "label") (o.lookup "label")
  let is_required ← optD (asBool "isRequired") (o.lookup "isRequired")
  let error_message ← optD (asStr "errorMessage") (o.lookup "errorMessage")
  let separator ← optD (asBool "separator") (o.lookup "separator")
  let spacing ← optD decodeSpacing (o.lookup "spacing")
  let height ← optD decodeHeight (o.lookup "height")
  let is_visible ← optD (asBool "isVisible") (o.lookup "isVisible")
  return ⟨id, is_multiline, max_length, placeholder, regex, style, value, label,
    is_required, error_message, separator, spacing, height, is_visible⟩

theorem decode_encode_inputText (x : InputText)
    (h : u32Ok x.max_length = true) :
    decodeInputText (encodeInputText x) = .ok x := by
  simp [decodeInputText, encodeInputText, lookup_cons, lookup_optE, lookup_optE_last,
    reqD, asStr, optD_u32_roundtrip h, optD_u32_roundtrip_bind h, optD_asBool, optD_asStr,
    optD_token decode_token_textInputStyle, optD_token decode_token_spacing,
    optD_token decode_token_height]
  rfl

structure InputNumber where
  id : String
  min : Option Rat
  max : Option Rat
  placeholder : Option String
  value : Option Rat
  label : Option String
  is_required : Option Bool
  error_message : Option String
  separator : Option Bool
  spacing : Option Spacing
  height : Option Height
  is_visible : Option Bool
deriving DecidableEq

def encodeInputNumber (x : InputNumber) : List (String × Json) :=
  ("id", .str x.id) ::
    (optE "min" .num x.min ++
     optE "max" .num x.max ++
     optE "placeholder" .str x.placeholder ++
     optE "value" .num x.value ++
     optE "label" .str x.label ++
     optE "isRequired" .bool x.is_required ++
     optE "errorMessage" .str x.error_message ++
     optE "separator" .bool x.separator ++
     optE "spacing" (fun v => .str v.token) x.spacing ++
     optE "height" (fun v => .str v.token) x.height ++
     optE "isVisible" .bool x.is_visible)

def decodeInputNumber (o : List (String × Json)) : D InputNumber := do
  let id ← reqD "id" (asStr "id") (o.lookup "id")
  let min ← optD (asNum "min") (o.lookup "min")
  let max ← optD (asNum "max") (o.lookup "max")
  let placeholder ← optD (asStr "placeholder") (o.lookup "placeholder")
  let value ← optD (asNum "value") (o.lookup "value")
  let label ← optD (asStr "label") (o.lookup "label")
  let is_required ← optD (asBool "isRequired") (o.lookup "isRequired")
  let error_message ← optD (asStr "errorMessage") (o.lookup "errorMessage")
  let separator ← optD (asBool "separator") (o.lookup "separator")
  let spacing ← optD decodeSpacing (o.lookup "spacing")
  let height ← optD decodeHeight (o.lookup "height")
  let is_visible ← optD (asBool "isVisible") (o.lookup "isVisible")
  return ⟨id, min, max, placeholder, value, label, is_required, error_message,
    separator, spacing, height, is_visible⟩

theorem decode_encode_inputNumber (x : InputNumber) :
    decodeInputNumber (encodeInputNumber x) = .ok x := by
  simp [decodeInputNumber, encodeInputNumber, lookup_cons, lookup_optE, lookup_optE_last,
    reqD, asStr, optD_asBool, optD_asStr, optD_asNum,
    optD_token decode_token_spacing, optD_token decode_token_height]
  rfl

structure InputDate where
  id : String
  min : Option String
  max : Option String
  placeholder : Option String
  value : Option String
  label : Option String
  is_required : Option Bool
  error_message : Option String
  separator : Option Bool
  spacing : Option Spacing
  height : Option Height
  is_visible : Option Bool
deriving DecidableEq

def encodeInputDate (x : InputDate) : List (String × Json) :=
  ("id", .str x.id) ::
    (optE "min" .str x.min ++
     optE "max" .str x.max ++
     optE "placeholder" .str x.placeholder ++
     optE "value" .str x.value ++
     optE "label" .str x.label ++
     optE "isRequired" .bool x.is_required ++
     optE "errorMessage" .str x.error_message ++
     optE "separator" .bool x.separator ++
     optE "spacing" (fun v => .str v.token) x.spacing ++
     optE "height" (fun v => .str v.token) x.height ++
     optE "isVisible" .bool x.is_visible)

def decodeInputDate (o : List (String × Json)) : D InputDate := do
  let id ← reqD "id" (asStr "id") (o.lookup "id")
  let min ← optD (asStr "min") (o.lookup "min")
  let max ← optD (asStr "max") (o.lookup "max")
  let placeholder ← optD (asStr "placeholder") (o.lookup "placeholder")
  let value ← optD (asStr "value") (o.lookup "value")
  let label ← optD (asStr "label") (o.lookup "label")
  let is_required ← optD (asBool "isRequired") (o.lookup "isRequired")
  let error_message ← optD (asStr "errorMessage") (o.lookup "errorMessage")
  let separator ← optD (asBool "separator") (o.lookup "separator")
  let spacing ← optD decodeSpacing (o.lookup "spacing")
  let height ← optD decodeHeight (o.lookup "height")
  let is_visible ← optD (asBool "isVisible") (o.lookup "isVisible")
  return ⟨id, min, max, placeholder, value, label, is_required, error_message,
    separator, spacing, height, is_visible⟩

theorem decode_encode_inputDate (x : InputDate) :
    decodeInputDate (encodeInputDate x) = .ok x := by
  simp [decodeInputDate, encodeInputDate, lookup_cons, lookup_optE, lookup_optE_last,
    reqD, asStr, optD_asBool, optD_asStr,
    optD_token decode_token_spacing, optD_token decode_token_height]
  rfl

structure InputTime where
  id : String
  min : Option String
  max : Option String
  placeholder : Option String
  value : Option String
  label : Option String
  is_required : Option Bool
  error_message : Option String
  separator : Option Bool
  spacing : Option Spacing
  height : Option Height
  is_visible : Option Bool
deriving DecidableEq

def encodeInputTime (x : InputTime) : List (String × Json) :=
  ("id", .str x.id) ::
    (optE "min" .str x.min ++
     optE "max" .str x.max ++
     optE "placeholder" .str x.placeholder ++
     optE "value" .str x.value ++
     optE "label" .str x.label ++
     optE "isRequired" .bool x.is_required ++
     optE "errorMessage" .str x.error_message ++
     optE "separator" .bool x.separator ++
     optE "spacing" (fun v => .str v.token) x.spacing ++
     optE "height" (fun v => .str v.token) x.height ++
     optE "isVisible" .bool x.is_visible)

def decodeInputTime (o : List (String × Json)) : D InputTime := do
  let id ← reqD "id" (asStr "id") (o.lookup "id")
  let min ← optD (asStr "min") (o.lookup "min")
  let max ← optD (asStr "max") (o.lookup "max")
  let placeholder ← optD (asStr "placeholder") (o.lookup "placeholder")
  let value ← optD (asStr "value") (o.lookup "value")
  let label ← optD (asStr "label") (o.lookup "label")
  let is_required ← optD (asBool "isRequired") (o.lookup "isRequired")
  let error_message ← optD (asStr "errorMessage") (o.lookup "errorMessage")
  let separator ← optD (asBool "separator") (o.lookup "separator")
  let spacing ← optD decodeSpacing (o.lookup "spacing")
  let height ← optD decodeHeight (o.lookup "height")
  let is_visible ← optD (asBool "isVisible") (o.lookup "isVisible")
  return ⟨id, min, max, placeholder, value, label, is_required, error_message,
    separator, spacing, height, is_visible⟩

theorem decode_encode_inputTime (x : InputTime) :
    decodeInputTime (encodeInputTime x) = .ok x := by
  simp [decodeInputTime, encodeInputTime, lookup_cons, lookup_optE, lookup_optE_last,
    reqD, asStr, optD_asBool, optD_asStr,
    optD_token decode_token_spacing, optD_token decode_token_height]
  rfl

structure InputToggle where
  id : String
  title : String
  value : Option String
  value_on : Option String
  value_off : Option String
  wrap : Option Bool
  label : Option String
  is_required : Option Bool
  error_message : Option String
  separator : Option Bool
  spacing : Option Spacing
  height : Option Height
  is_visible : Option Bool
deriving DecidableEq

def encodeInputToggle (x : InputToggle) : List (String × Json) :=
  ("id", .str x.id) ::
    ("title", .str x.title) ::
    (optE "value" .str x.value ++
     optE "valueOn" .str x.value_on ++
     optE "valueOff" .str x.value_off ++
     optE "wrap" .bool x.wrap ++
     optE "label" .str x.label ++
     optE "isRequired" .bool x.is_required ++
     optE "errorMessage" .str x.error_message ++
     optE "separator" .bool x.separator ++
     optE "spacing" (fun v => .str v.token) x.spacing ++
     optE "height" (fun v => .str v.token) x.height ++
     optE "isVisible" .bool x.is_visible)

def decodeInputToggle (o : List (String × Json)) : D InputToggle := do
  let id ← reqD "id" (asStr "id") (o.lookup "id")
  let title ← reqD "title" (asStr "title") (o.lookup "title")
  let value ← optD (asStr "value") (o.lookup "value")
  let value_on ← optD (asStr "valueOn") (o.lookup "valueOn")
  let value_off ← optD (asStr "valueOff") (o.lookup "valueOff")
  let wrap ← optD (asBool "wrap") (o.lookup "wrap")
  let label ← optD (asStr "label") (o.lookup "label")
  let is_required ← optD (asBool "isRequired") (o.lookup "isRequired")
  let error_message ← optD (asStr "errorMessage") (o.lookup "errorMessage")
  let separator ← optD (asBool "separator") (o.lookup "separator")
  let spacing ← optD decodeSpacing (o.lookup "spacing")
  let height ← optD decodeHeight (o.lookup "height")
  let is_visible ← optD (asBool "isVisible") (o.lookup "isVisible")
  return ⟨id, title, value, value_on, value_off, wrap, label, is_required,
    error_message, separator, spacing, height, is_visible⟩

theorem decode_encode_inputToggle (x : InputToggle) :
    decodeInputToggle (encodeInputToggle x) = .ok x := by
  simp [decodeInputToggle, encodeInputToggle, lookup_cons, lookup_optE, lookup_optE_last,
    reqD, asStr, optD_asBool, optD_asStr,
    optD_token decode_token_spacing, optD_token decode_token_height]
  rfl

structure InputChoice where
  title : String
  value : String
deriving DecidableEq

def encodeInputChoice (c : InputChoice) : List (String × Json) :=
  [("title", .str c.title), ("value", .str c.value)]

def decodeInputChoiceJ : Json → D InputChoice
  | .obj o => do
    let title ← reqD "title" (asStr "title") (o.lookup "title")
    let value ← reqD "value" (asStr "value") (o.lookup "value")
    return ⟨title, value⟩
  | _ => .error (.typeMismatch "choices")

theorem decode_encode_inputChoice (c : InputChoice) :
    decodeInputChoiceJ (.obj (encodeInputChoice c)) = .ok c := by
  rfl

structure InputChoiceSet where
  id : String
  choices : Option (List InputChoice)
  is_multi_select : Option Bool
  style : Option ChoiceInputStyle
  value : Option String
  placeholder : Option String
  wrap : Option Bool
  label : Option String
  is_required : Option Bool
  error_message : Option String
  separator : Option Bool
  spacing : Option Spacing
  height : Option Height
  is_visible : Option Bool
deriving DecidableEq

def encodeInputChoiceSet (x : InputChoiceSet) : List (String × Json) :=
  ("id", .str x.id) ::
    (optE "choices" (fun cs => .arr (cs.map (fun c => .obj (encodeInputChoice c)))) x.choices ++
     optE "isMultiSelect" .bool x.is_multi_select ++
     optE "style" (fun v => .str v.token) x.style ++
     optE "value" .str x.value ++
     optE "placeholder" .str x.placeholder ++
     optE "wrap" .bool x.wrap ++
     optE "label" .str x.label ++
     optE "isRequired" .bool x.is_required ++
     optE "errorMessage" .str x.error_message ++
     optE "separator" .bool x.separator ++
     optE "spacing" (fun v => .str v.token) x.spacing ++
     optE "height" (fun v => .str v.token) x.height ++
     optE "isVisible" .bool x.is_visible)

def decodeInputChoiceSet (o : List (String × Json)) : D InputChoiceSet := do
  let id ← reqD "id" (asStr "id") (o.lookup "id")
  let choices ← optD (asArr "choices" decodeInputChoiceJ) (o.lookup "choices")
  let is_multi_select ← optD (asBool "isMultiSelect") (o.lookup "isMultiSelect")
  let style ← optD decodeChoiceInputStyle (o.lookup "style")
  let value ← optD (asStr "value") (o.lookup "value")
  let placeholder ← optD (asStr "placeholder") (o.lookup "placeholder")
  let wrap ← optD (asBool "wrap") (o.lookup "wrap")
  let label ← optD (asStr "label") (o.lookup "label")
  let is_required ← optD (asBool "isRequired") (o.lookup "isRequired")
  let error_message ← optD (asStr "errorMessage") (o.lookup "errorMessage")
  let separator ← optD (asBool "separator") (o.lookup "separator")
  let spacing ← optD decodeSpacing (o.lookup "spacing")
  let height ← optD decodeHeight (o.lookup "height")
  let is_visible ← optD (asBool "isVisible") (o.lookup "isVisible")
  return ⟨id, choices, is_multi_select, style, value, placeholder, wrap, label,
    is_required, error_message, separator, spacing, height, is_visible⟩

theorem optD_choices_roundtrip (v : Option (List InputChoice)) :
    optD (asArr "choices" decodeInputChoiceJ)
      (v.map (fun cs => .arr (cs.map (fun c => .obj (encodeInputChoice c))))) = .ok v := by
  cases v with
  | none => rfl
  | some cs =>
    simp only [Option.map_some']
    show optD _ (some (.arr (cs.map (fun c => .obj (encodeInputChoice c))))) = _
    simp [optD, Json.isNull, asArr_map_roundtrip "choices" decode_encode_inputChoice,
      Except.map]

theorem decode_encode_inputChoiceSet (x : InputChoiceSet) :
    decodeInputChoiceSet (encodeInputChoiceSet x) = .ok x := by
  simp [decodeInputChoiceSet, encodeInputChoiceSet, lookup_cons, lookup_optE,
    lookup_optE_last, reqD, asStr, optD_asBool, optD_asStr, optD_choices_roundtrip,
    optD_token decode_token_choiceInputStyle,
    optD_token decode_token_spacing, optD_token decode_token_height]
  rfl

end ACard

namespace ACard

/-! Non-recursive action variants (src/actions.rs, `rename_all = "camelCase"`).
The `ShowCardAction` variant owns a nested document and is defined with the
recursive cluster below. -/

structure OpenUrlAction where
  title : Option String
  url : String
  id : Option String
  icon_url : Option String
  style : Option ActionStyle
  tooltip : Option String
  is_enabled : Option Bool
  mode : Option ActionMode
deriving DecidableEq

def encodeOpenUrlAction (a : OpenUrlAction) : List (String × Json) :=
  optE "title" .str a.title ++
    (("url", .str a.url) ::
      (optE "id" .str a.id ++
       optE "iconUrl" .str a.icon_url ++
       optE "style" (fun v => .str v.token) a.style ++
       optE "tooltip" .str a.tooltip ++
       optE "isEnabled" .bool a.is_enabled ++
       optE "mode" (fun v => .str v.token) a.mode))

def decodeOpenUrlAction (o : List (String × Json)) : D OpenUrlAction := do
  let title ← optD (asStr "title") (o.lookup "title")
  let url ← reqD "url" (asStr "url") (o.lookup "url")
  let id ← optD (asStr "id") (o.lookup "id")
  let icon_url ← optD (asStr "iconUrl") (o.lookup "iconUrl")
  let style ← optD decodeActionStyle (o.lookup "style")
  let tooltip ← optD (asStr "tooltip") (o.lookup "tooltip")
  let is_enabled ← optD (asBool "isEnabled") (o.lookup "isEnabled")
  let mode ← optD decodeActionMode (o.lookup "mode")
  return ⟨title, url, id, icon_url, style, tooltip, is_enabled, mode⟩

theorem decode_encode_openUrlAction (a : OpenUrlAction) :
    decodeOpenUrlAction (encodeOpenUrlAction a) = .ok a := by
  simp [decodeOpenUrlAction, encodeOpenUrlAction, lookup_cons, lookup_optE,
    lookup_optE_last, reqD, asStr, optD_asBool, optD_asStr,
    optD_token decode_token_actionStyle, optD_token decode_token_actionMode]
  rfl

/-- Condition under which the free-form `data` payload of a submit action
survives the `Option` round trip: serde decodes an explicit top-level
`null` back to `None`, so `Some(Value::Null)` does not round-trip. -/
def dataOk : Option Json → Bool
  | none => true
  | some j => !j.isNull

theorem optD_data_roundtrip {v : Option Json} (h : dataOk v = true) :
    optD (fun j => .ok j) v = .ok v := by
  cases v with
  | none => rfl
  | some j =>
    simp only [dataOk, Bool.not_eq_true'] at h
    simp [optD, h, Except.map]

structure SubmitAction where
  title : Option String
  data : Option Json
  associated_inputs : Option AssociatedInputs
  id : Option String
  icon_url : Option String
  style : Option ActionStyle
  tooltip : Option String
  is_enabled : Option Bool
  mode : Option ActionMode

def encodeSubmitAction (a : SubmitAction) : List (String × Json) :=
  optE "title" .str a.title ++
    optE "data" (fun j => j) a.data ++
    optE "associatedInputs" (fun v => .str v.token) a.associated_inputs ++
    optE "id" .str a.id ++
    optE "iconUrl" .str a.icon_url ++
    optE "style" (fun v => .str v.token) a.style ++
    optE "tooltip" .str a.tooltip ++
    optE "isEnabled" .bool a.is_enabled ++
    optE "mode" (fun v => .str v.token) a.mode

def decodeSubmitAction (o : List (String × Json)) : D SubmitAction := do
  let title ← optD (asStr "title") (o.lookup "title")
  let data ← optD (fun j => .ok j) (o.lookup "data")
  let associated_inputs ← optD decodeAssociatedInputs (o.lookup "associatedInputs")
  let id ← optD (asStr "id") (o.lookup "id")
  let icon_url ← optD (asStr "iconUrl") (o.lookup "iconUrl")
  let style ← optD decodeActionStyle (o.lookup "style")
  let tooltip ← optD (asStr "tooltip") (o.lookup "tooltip")
  let is_enabled ← optD (asBool "isEnabled") (o.lookup "isEnabled")
  let mode ← optD decodeActionMode (o.lookup "mode")
  return ⟨title, data, associated_inputs, id, icon_url, style, tooltip,
    is_enabled, mode⟩

theorem decode_encode_submitAction (a : SubmitAction)
    (h : dataOk a.data = true) :
    decodeSubmitAction (encodeSubmitAction a) = .ok a := by
  have hd : a.data.map (fun j => j) = a.data := by cases a.data <;> rfl
  simp [decodeSubmitAction, encodeSubmitAction, lookup_cons, lookup_optE,
    lookup_optE_last, hd, optD_data_roundtrip h, asStr, optD_asBool, optD_asStr,
    optD_token decode_token_associatedInputs,
    optD_token decode_token_actionStyle, optD_token decode_token_actionMode]
  rfl

structure ToggleVisibilityAction where
  title : Option String
  target_elements : List String
  id : Option String
  icon_url : Option String
  style : Option ActionStyle
  tooltip : Option String
  is_enabled : Option Bool
  mode : Option ActionMode
deriving DecidableEq

def encodeToggleVisibilityAction (a : ToggleVisibilityAction) : List (String × Json) :=
  optE "title" .str a.title ++
    (("targetElements", .arr (a.target_elements.map .str)) ::
      (optE "id" .str a.id ++
       optE "iconUrl" .str a.icon_url ++
       optE "style" (fun v => .str v.token) a.style ++
       optE "tooltip" .str a.tooltip ++
       optE "isEnabled" .bool a.is_enabled ++
       optE "mode" (fun v => .str v.token) a.mode))

def decodeToggleVisibilityAction (o : List (String × Json)) : D ToggleVisibilityAction := do
  let title ← optD (asStr "title") (o.lookup "title")
  let target_elements ← reqD "targetElements" (asArr "targetElements" (asStr "targetElements"))
    (o.lookup "targetElements")
  let id ← optD (asStr "id") (o.lookup "id")
  let icon_url ← optD (asStr "iconUrl") (o.lookup "iconUrl")
  let style ← optD decodeActionStyle (o.lookup "style")
  let tooltip ← optD (asStr "tooltip") (o.lookup "tooltip")
  let is_enabled ← optD (asBool "isEnabled") (o.lookup "isEnabled")
  let mode ← optD decodeActionMode (o.lookup "mode")
  return ⟨title, target_elements, id, icon_url, style, tooltip, is_enabled, mode⟩

theorem asArr_str_roundtrip (k : String) (l : List String) :
    asArr k (asStr k) (.arr (l.map .str)) = .ok l :=
  @asArr_map_roundtrip String k (asStr k) Json.str (fun _ => rfl) l

theorem decode_encode_toggleVisibilityAction (a : ToggleVisibilityAction) :
    decodeToggleVisibilityAction (encodeToggleVisibilityAction a) = .ok a := by
  simp [decodeToggleVisibilityAction, encodeToggleVisibilityAction, lookup_cons,
    lookup_optE, lookup_optE_last, reqD, optD_asBool, optD_asStr,
    asArr_str_roundtrip,
    optD_token decode_token_actionStyle, optD_token decode_token_actionMode]
  rfl

end ACard

namespace ACard

/-! The recursive cluster (src/card.rs, src/actions.rs): the root document,
the two tagged variant families, the container-like aggregates and the
show-card action that owns a nested document.  Rust closes the recursion
with `Box` indirections, which carry no observable content and are erased
here. -/

mutual

inductive AdaptiveCard where
  | mk (schema : String) (version : Version) (body : List CardElement)
      (msteams : Option MsTeams) (actions : Option (List Action))
      (select_action : Option Action) (fallback_text : Option String)
      (min_height : Option String)
      (vertical_content_alignment : Option VerticalContentAlignment)
      (rtl : Option Bool) (lang : Option String) : AdaptiveCard

inductive CardElement where
  | TextBlock (tb : TextBlock) : CardElement
  | Container (c : Container) : CardElement
  | ColumnSet (cs : ColumnSet) : CardElement
  | Image (img : Image) : CardElement
  | ActionSet (acts : ActionSet) : CardElement
  | FactSet (fs : FactSet) : CardElement
  | RichTextBlock (r : RichTextBlock) : CardElement
  | InputText (x : InputText) : CardElement
  | InputNumber (x : InputNumber) : CardElement
  | InputDate (x : InputDate) : CardElement
  | InputTime (x : InputTime) : CardElement
  | InputToggle (x : InputToggle) : CardElement
  | InputChoiceSet (x : InputChoiceSet) : CardElement

inductive Container where
  | mk (items : List CardElement) (style : Option ContainerStyle)
      (spacing : Option Spacing) (select_action : Option Action)
      (vertical_content_alignment : Option VerticalContentAlignment)
      (bleed : Option Bool) (min_height : Option String) (id : Option String)
      (separator : Option Bool) (height : Option Height)
      (is_visible : Option Bool) : Container

inductive ColumnSet where
  | mk (columns : List Column) : ColumnSet

inductive Column where
  | mk (width : ColumnWidth) (items : List CardElement) : Column

inductive Image where
  | mk (url : String) (size : Option ImageSize) (alt_text : Option String)
      (background_color : Option String)
      (horizontal_alignment : Option HorizontalAlignment)
      (select_action : Option Action) (width : Option String)
      (id : Option String) (separator : Option Bool) (spacing : Option Spacing)
      (height : Option Height) (is_visible : Option Bool) : Image

inductive ActionSet where
  | mk (actions : List Action) : ActionSet

inductive Action where
  | OpenUrl (a : OpenUrlAction) : Action
  | Submit (a : SubmitAction) : Action
  | ShowCard (a : ShowCardAction) : Action
  | ToggleVisibility (a : ToggleVisibilityAction) : Action

inductive ShowCardAction where
  | mk (title : Option String) (card : AdaptiveCard) (id : Option String)
      (icon_url : Option String) (style : Option ActionStyle)
      (tooltip : Option String) (is_enabled : Option Bool)
      (mode : Option ActionMode) : ShowCardAction

end

def AdaptiveCard.schema : AdaptiveCard → String
  | .mk s _ _ _ _ _ _ _ _ _ _ => s

def AdaptiveCard.version : AdaptiveCard → Version
  | .mk _ v _ _ _ _ _ _ _ _ _ => v

def AdaptiveCard.body : AdaptiveCard → List CardElement
  | .mk _ _ b _ _ _ _ _ _ _ _ => b

def AdaptiveCard.msteams : AdaptiveCard → Option MsTeams
  | .mk _ _ _ m _ _ _ _ _ _ _ => m

def AdaptiveCard.actions : AdaptiveCard → Option (List Action)
  | .mk _ _ _ _ a _ _ _ _ _ _ => a

def AdaptiveCard.select_action : AdaptiveCard → Option Action
  | .mk _ _ _ _ _ sa _ _ _ _ _ => sa

def AdaptiveCard.fallback_text : AdaptiveCard → Option String
  | .mk _ _ _ _ _ _ ft _ _ _ _ => ft

def AdaptiveCard.min_height : AdaptiveCard → Option String
  | .mk _ _ _ _ _ _ _ mh _ _ _ => mh

def AdaptiveCard.vertical_content_alignment : AdaptiveCard → Option VerticalContentAlignment
  | .mk _ _ _ _ _ _ _ _ vca _ _ => vca

def AdaptiveCard.rtl : AdaptiveCard → Option Bool
  | .mk _ _ _ _ _ _ _ _ _ r _ => r

def AdaptiveCard.lang : AdaptiveCard → Option String
  | .mk _ _ _ _ _ _ _ _ _ _ l => l

/-- Default root document (`impl Default for AdaptiveCard`): the fixed
schema marker, version 1.2, empty body, every optional field unset. -/
def AdaptiveCard.default : AdaptiveCard :=
  .mk "http://adaptivecards.io/schemas/adaptive-card.json" .V1_2 []
    none none none none none none none none

def Container.items : Container → List CardElement
  | .mk i _ _ _ _ _ _ _ _ _ _ => i

def Container.style : Container → Option ContainerStyle
  | .mk _ s _ _ _ _ _ _ _ _ _ => s

def Container.spacing : Container → Option Spacing
  | .mk _ _ s _ _ _ _ _ _ _ _ => s

def Container.select_action : Container → Option Action
  | .mk _ _ _ sa _ _ _ _ _ _ _ => sa

def Container.vertical_content_alignment : Container → Option VerticalContentAlignment
  | .mk _ _ _ _ vca _ _ _ _ _ _ => vca

def Container.bleed : Container → Option Bool
  | .mk _ _ _ _ _ b _ _ _ _ _ => b

def Container.min_height : Container → Option String
  | .mk _ _ _ _ _ _ mh _ _ _ _ => mh

def Container.id : Container → Option String
  | .mk _ _ _ _ _ _ _ i _ _ _ => i

def Container.separator : Container → Option Bool
  | .mk _ _ _ _ _ _ _ _ s _ _ => s

def Container.height : Container → Option Height
  | .mk _ _ _ _ _ _ _ _ _ h _ => h

def Container.is_visible : Container → Option Bool
  | .mk _ _ _ _ _ _ _ _ _ _ v => v

def ColumnSet.columns : ColumnSet → List Column
  | .mk c => c

def Column.width : Column → ColumnWidth
  | .mk w _ => w

def Column.items : Column → List CardElement
  | .mk _ i => i

def Image.url : Image → String
  | .mk u _ _ _ _ _ _ _ _ _ _ _ => u

def Image.size : Image → Option ImageSize
  | .mk _ s _ _ _ _ _ _ _ _ _ _ => s

def Image.alt_text : Image → Option String
  | .mk _ _ a _ _ _ _ _ _ _ _ _ => a

def Image.background_color : Image → Option String
  | .mk _ _ _ b _ _ _ _ _ _ _ _ => b

def Image.horizontal_alignment : Image → Option HorizontalAlignment
  | .mk _ _ _ _ ha _ _ _ _ _ _ _ => ha

def Image.select_action : Image → Option Action
  | .mk _ _ _ _ _ sa _ _ _ _ _ _ => sa

def Image.width : Image → Option String
  | .mk _ _ _ _ _ _ w _ _ _ _ _ => w

def Image.id : Image → Option String
  | .mk _ _ _ _ _ _ _ i _ _ _ _ => i

def Image.separator : Image → Option Bool
  | .mk _ _ _ _ _ _ _ _ s _ _ _ => s

def Image.spacing : Image → Option Spacing
  | .mk _ _ _ _ _ _ _ _ _ s _ _ => s

def Image.height : Image → Option Height
  | .mk _ _ _ _ _ _ _ _ _ _ h _ => h

def Image.is_visible : Image → Option Bool
  | .mk _ _ _ _ _ _ _ _ _ _ _ v => v

def ActionSet.actions : ActionSet → List Action
  | .mk a => a

def ShowCardAction.title : ShowCardAction → Option String
  | .mk t _ _ _ _ _ _ _ => t

def ShowCardAction.card : ShowCardAction → AdaptiveCard
  | .mk _ c _ _ _ _ _ _ => c

def ShowCardAction.id : ShowCardAction → Option String
  | .mk _ _ i _ _ _ _ _ => i

def ShowCardAction.icon_url : ShowCardAction → Option String
  | .mk _ _ _ u _ _ _ _ => u

def ShowCardAction.style : ShowCardAction → Option ActionStyle
  | .mk _ _ _ _ s _ _ _ => s

def ShowCardAction.tooltip : ShowCardAction → Option String
  | .mk _ _ _ _ _ t _ _ => t

def ShowCardAction.is_enabled : ShowCardAction → Option Bool
  | .mk _ _ _ _ _ _ e _ => e

def ShowCardAction.mode : ShowCardAction → Option ActionMode
  | .mk _ _ _ _ _ _ _ m => m

end ACard

namespace ACard

mutual

/-- Serialization of the root document: the struct-level `tag = "type"`
emits the `"AdaptiveCard"` marker first, then the fields in declaration
order. -/
def encodeAdaptiveCard : AdaptiveCard → Json
  | .mk schema version body msteams actions select_action fallback_text
      min_height vertical_content_alignment rtl lang =>
    .obj (("type", .str "AdaptiveCard") ::
      ("$schema", .str schema) ::
      ("version", .str version.token) ::
      ("body", .arr (encodeCardElements body)) ::
      (optE "msteams" (fun m => .obj (encodeMsTeams m)) msteams ++
       encodeOptActions "actions" actions ++
       encodeOptAction "selectAction" select_action ++
       optE "fallbackText" .str fallback_text ++
       optE "minHeight" .str min_height ++
       optE "verticalContentAlignment" (fun v => .str v.token) vertical_content_alignment ++
       optE "rtl" .bool rtl ++
       optE "lang" .str lang))

def encodeCardElements : List CardElement → List Json
  | [] => []
  | e :: es => encodeCardElement e :: encodeCardElements es

/-- Serialization of a body node: the internally tagged `CardElement` enum
writes the discriminant and then the variant's own entries at the same
level.  The `ColumnSet` struct carries its own additional struct-level tag,
so that variant emits the `"type"` key twice. -/
def encodeCardElement : CardElement → Json
  | .TextBlock tb => .obj (("type", .str "TextBlock") :: encodeTextBlock tb)
  | .Container c => .obj (("type", .str "Container") :: encodeContainer c)
  | .ColumnSet cs => .obj (("type", .str "ColumnSet") :: encodeColumnSet cs)
  | .Image img => .obj (("type", .str "Image") :: encodeImage img)
  | .ActionSet acts => .obj (("type", .str "ActionSet") :: encodeActionSet acts)
  | .FactSet fs => .obj (("type", .str "FactSet") :: encodeFactSet fs)
  | .RichTextBlock r => .obj (("type", .str "RichTextBlock") :: encodeRichTextBlock r)
  | .InputText x => .obj (("type", .str "Input.Text") :: encodeInputText x)
  | .InputNumber x => .obj (("type", .str "Input.Number") :: encodeInputNumber x)
  | .InputDate x => .obj (("type", .str "Input.Date") :: encodeInputDate x)
  | .InputTime x => .obj (("type", .str "Input.Time") :: encodeInputTime x)
  | .InputToggle x => .obj (("type", .str "Input.Toggle") :: encodeInputToggle x)
  | .InputChoiceSet x => .obj (("type", .str "Input.ChoiceSet") :: encodeInputChoiceSet x)

def encodeContainer : Container → List (String × Json)
  | .mk items style spacing select_action vertical_content_alignment bleed
      min_height id separator height is_visible =>
    ("items", .arr (encodeCardElements items)) ::
      (optE "style" (fun v => .str v.token) style ++
       optE "spacing" (fun v => .str v.token) spacing ++
       encodeOptAction "selectAction" select_action ++
       optE "verticalContentAlignment" (fun v => .str v.token) vertical_content_alignment ++
       optE "bleed" .bool bleed ++
       optE "minHeight" .str min_height ++
       optE "id" .str id ++
       optE "separator" .bool separator ++
       optE "height" (fun v => .str v.token) height ++
       optE "isVisible" .bool is_visible)

/-- Entries of a `ColumnSet`: the struct's own `tag = "type"` attribute adds
a second discriminant in front of `columns`. -/
def encodeColumnSet : ColumnSet → List (String × Json)
  | .mk columns =>
    [("type", .str "ColumnSet"), ("columns", .arr (encodeColumns columns))]

def encodeColumns : List Column → List Json
  | [] => []
  | c :: cs => encodeColumn c :: encodeColumns cs

def encodeColumn : Column → Json
  | .mk width items =>
    .obj [("type", .str "Column"), ("width", encodeColumnWidth width),
      ("items", .arr (encodeCardElements items))]

def encodeImage : Image → List (String × Json)
  | .mk url size alt_text background_color horizontal_alignment select_action
      width id separator spacing height is_visible =>
    ("url", .str url) ::
      (optE "size" (fun v => .str v.token) size ++
       optE "altText" .str alt_text ++
       optE "backgroundColor" .str background_color ++
       optE "horizontalAlignment" (fun v => .str v.token) horizontal_alignment ++
       encodeOptAction "selectAction" select_action ++
       optE "width" .str width ++
       optE "id" .str id ++
       optE "separator" .bool separator ++
       optE "spacing" (fun v => .str v.token) spacing ++
       optE "height" (fun v => .str v.token) height ++
       optE "isVisible" .bool is_visible)

def encodeActionSet : ActionSet → List (String × Json)
  | .mk actions => [("actions", .arr (encodeActions actions))]

def encodeActions : List Action → List Json
  | [] => []
  | a :: rest => encodeAction a :: encodeActions rest

def encodeAction : Action → Json
  | .OpenUrl a => .obj (("type", .str "Action.OpenUrl") :: encodeOpenUrlAction a)
  | .Submit a => .obj (("type", .str "Action.Submit") :: encodeSubmitAction a)
  | .ShowCard a => .obj (("type", .str "Action.ShowCard") :: encodeShowCardAction a)
  | .ToggleVisibility a =>
    .obj (("type", .str "Action.ToggleVisibility") :: encodeToggleVisibilityAction a)

def encodeShowCardAction : ShowCardAction → List (String × Json)
  | .mk title card id icon_url style tooltip is_enabled mode =>
    optE "title" .str title ++
      (("card", encodeAdaptiveCard card) ::
        (optE "id" .str id ++
         optE "iconUrl" .str icon_url ++
         optE "style" (fun v => .str v.token) style ++
         optE "tooltip" .str tooltip ++
         optE "isEnabled" .bool is_enabled ++
         optE "mode" (fun v => .str v.token) mode))

def encodeOptAction (k : String) : Option Action → List (String × Json)
  | none => []
  | some a => [(k, encodeAction a)]

def encodeOptActions (k : String) : Option (List Action) → List (String × Json)
  | none => []
  | some l => [(k, .arr (encodeActions l))]

end

end ACard

namespace ACard

/-- A successful lookup names an entry of the list. -/
theorem lookup_mem {o : List (String × Json)} {k : String} {v : Json}
    (h : List.lookup k o = some v) : (k, v) ∈ o := by
  induction o with
  | nil => simp [List.lookup] at h
  | cons p t ih =>
    obtain ⟨k', v'⟩ := p
    by_cases hk : (k == k') = true
    · simp only [List.lookup, hk] at h
      cases h
      have hkk : k = k' := eq_of_beq hk
      subst hkk
      exact List.mem_cons_self _ _
    · simp only [Bool.not_eq_true] at hk
      simp only [List.lookup, hk] at h
      exact List.mem_cons_of_mem _ (ih h)

mutual

/-- Structural size of a JSON value, used as the recursion-depth bound of
the decoders below. -/
def sizeJ : Json → Nat
  | .null => 1
  | .bool _ => 1
  | .num _ => 1
  | .str _ => 1
  | .arr js => 1 + sizeJL js
  | .obj es => 1 + sizeJE es

def sizeJL : List Json → Nat
  | [] => 0
  | j :: js => 1 + sizeJ j + sizeJL js

def sizeJE : List (String × Json) → Nat
  | [] => 0
  | (_, v) :: es => 2 + sizeJ v + sizeJE es

end

theorem sizeJE_append (l₁ l₂ : List (String × Json)) :
    sizeJE (l₁ ++ l₂) = sizeJE l₁ + sizeJE l₂ := by
  induction l₁ with
  | nil => simp [sizeJE]
  | cons p es ih =>
    obtain ⟨k, v⟩ := p
    simp [sizeJE, ih]
    omega

theorem sizeJL_append (l₁ l₂ : List Json) :
    sizeJL (l₁ ++ l₂) = sizeJL l₁ + sizeJL l₂ := by
  induction l₁ with
  | nil => simp [sizeJL]
  | cons j js ih =>
    simp [sizeJL, ih]
    omega

/-- Size bound for decoder fuel: a value found by lookup is strictly
smaller than its entry list. -/
theorem sizeJ_lookup {o : List (String × Json)} {k : String} {v : Json}
    (h : List.lookup k o = some v) : sizeJ v + 1 < sizeJE o := by
  have hm := lookup_mem h
  clear h
  induction o with
  | nil => simp at hm
  | cons p es ih =>
    obtain ⟨k', v'⟩ := p
    rcases List.mem_cons.mp hm with heq | hmem
    · cases heq
      simp [sizeJE]
      omega
    · have := ih hmem
      simp [sizeJE]
      omega

/-- Scan for the discriminant entry of an internally tagged enum, as
serde's tagged-content visitor does: walk the entries in order, take the
first `"type"` entry as the tag (which must be a string), fail on a second
occurrence, and return the remaining entries in their original order. -/
def scanTag : List (String × Json) → D (String × List (String × Json))
  | [] => .error .missingDiscriminant
  | (k, v) :: rest =>
    if k = "type" then
      match v with
      | .str t =>
        if hasKey "type" rest then .error (.duplicateField "type")
        else .ok (t, rest)
      | _ => .error (.typeMismatch "type")
    else
      match scanTag rest with
      | .ok (t, rest') => .ok (t, (k, v) :: rest')
      | .error e => .error e

/-- The remaining entries after tag extraction are strictly smaller. -/
theorem scanTag_sizeJ : ∀ {o : List (String × Json)} {t : String}
    {rest : List (String × Json)}, scanTag o = .ok (t, rest) → sizeJE rest < sizeJE o := by
  intro o
  induction o with
  | nil => intro t rest h; simp [scanTag] at h
  | cons p tl ih =>
    intro t rest h
    obtain ⟨k, v⟩ := p
    simp only [scanTag] at h
    split at h
    · split at h
      · split at h
        · exact absurd h (by simp)
        · cases h
          simp only [sizeJE]
          omega
      · exact absurd h (by simp)
    · split at h
      · next t' rest' heq =>
        cases h
        have := ih heq
        simp only [sizeJE]
        omega
      · exact absurd h (by simp)

end ACard

namespace ACard

/-- Field assembly of the root document from the already-decoded recursive
parts; the struct-level tag field is ignored on input (the derived struct
deserializer treats it as an unknown key). -/
def assembleCard (o : List (String × Json)) (bodyD : D (List CardElement))
    (actionsD : D (Option (List Action))) (saD : D (Option Action)) :
    D AdaptiveCard := do
  let schema ← reqD "$schema" (asStr "$schema") (o.lookup "$schema")
  let version ← reqD "version" decodeVersion (o.lookup "version")
  let body ← bodyD
  let msteams ← optD decodeMsTeamsJ (o.lookup "msteams")
  let actions ← actionsD
  let select_action ← saD
  let fallback_text ← optD (asStr "fallbackText") (o.lookup "fallbackText")
  let min_height ← optD (asStr "minHeight") (o.lookup "minHeight")
  let vertical_content_alignment ←
    optD decodeVerticalContentAlignment (o.lookup "verticalContentAlignment")
  let rtl ← optD (asBool "rtl") (o.lookup "rtl")
  let lang ← optD (asStr "lang") (o.lookup "lang")
  return .mk schema version body msteams actions select_action fallback_text
    min_height vertical_content_alignment rtl lang

/-- Field assembly of a container node. -/
def assembleContainer (o : List (String × Json)) (itemsD : D (List CardElement))
    (saD : D (Option Action)) : D Container := do
  let items ← itemsD
  let style ← optD decodeContainerStyle (o.lookup "style")
  let spacing ← optD decodeSpacing (o.lookup "spacing")
  let select_action ← saD
  let vertical_content_alignment ←
    optD decodeVerticalContentAlignment (o.lookup "verticalContentAlignment")
  let bleed ← optD (asBool "bleed") (o.lookup "bleed")
  let min_height ← optD (asStr "minHeight") (o.lookup "minHeight")
  let id ← optD (asStr "id") (o.lookup "id")
  let separator ← optD (asBool "separator") (o.lookup "separator")
  let height ← optD decodeHeight (o.lookup "height")
  let is_visible ← optD (asBool "isVisible") (o.lookup "isVisible")
  return .mk items style spacing select_action vertical_content_alignment
    bleed min_height id separator height is_visible

/-- Field assembly of an image node. -/
def assembleImage (o : List (String × Json)) (saD : D (Option Action)) :
    D Image := do
  let url ← reqD "url" (asStr "url") (o.lookup "url")
  let size ← optD decodeImageSize (o.lookup "size")
  let alt_text ← optD (asStr "altText") (o.lookup "altText")
  let background_color ← optD (asStr "backgroundColor") (o.lookup "backgroundColor")
  let horizontal_alignment ←
    optD decodeHorizontalAlignment (o.lookup "horizontalAlignment")
  let select_action ← saD
  let width ← optD (asStr "width") (o.lookup "width")
  let id ← optD (asStr "id") (o.lookup "id")
  let separator ← optD (asBool "separator") (o.lookup "separator")
  let spacing ← optD decodeSpacing (o.lookup "spacing")
  let height ← optD decodeHeight (o.lookup "height")
  let is_visible ← optD (asBool "isVisible") (o.lookup "isVisible")
  return .mk url size alt_text background_color horizontal_alignment
    select_action width id separator spacing height is_visible

/-- Field assembly of a column. -/
def assembleColumn (o : List (String × Json)) (itemsD : D (List CardElement)) :
    D Column := do
  let width ← reqD "width" decodeColumnWidth (o.lookup "width")
  let items ← itemsD
  return .mk width items

/-- Field assembly of a show-card action around its nested document. -/
def assembleShowCard (o : List (String × Json)) (cardD : D AdaptiveCard) :
    D ShowCardAction := do
  let title ← optD (asStr "title") (o.lookup "title")
  let card ← cardD
  let id ← optD (asStr "id") (o.lookup "id")
  let icon_url ← optD (asStr "iconUrl") (o.lookup "iconUrl")
  let style ← optD decodeActionStyle (o.lookup "style")
  let tooltip ← optD (asStr "tooltip") (o.lookup "tooltip")
  let is_enabled ← optD (asBool "isEnabled") (o.lookup "isEnabled")
  let mode ← optD decodeActionMode (o.lookup "mode")
  return .mk title card id icon_url style tooltip is_enabled mode

/-! The decoders of the recursive cluster.  Rust/serde recursion is direct;
here the mutual recursion is made structural over an explicit fuel counter
(first argument), so that the definitions compute by kernel reduction.  The
`recursionTooDeep` branch is an artifact of that device: the wrappers below
always supply fuel strictly dominating the recursion depth (four calls per
JSON node suffice), so the branch is unreachable through them.  The spec
(§4.4, §7) itself licenses an explicit recursion-depth guard. -/

mutual

def decodeAdaptiveCardF : Nat → Json → D AdaptiveCard
  | 0, _ => .error .recursionTooDeep
  | fuel+1, .obj o =>
    assembleCard o (elementsFieldF fuel "body" o) (actionsFieldF fuel "actions" o)
      (actionFieldF fuel "selectAction" o)
  | _+1, _ => .error (.typeMismatch "AdaptiveCard")
termination_by structural fuel _ => fuel

/-- Extraction of a required array-of-nodes field. -/
def elementsFieldF : Nat → String → List (String × Json) → D (List CardElement)
  | 0, _, _ => .error .recursionTooDeep
  | fuel+1, k, o =>
    match o.lookup k with
    | none => .error (.missingField k)
    | some (.arr js) => decodeCardElementsF fuel js
    | some _ => .error (.typeMismatch k)
termination_by structural fuel _ _ => fuel

/-- Extraction of an optional array-of-actions field. -/
def actionsFieldF : Nat → String → List (String × Json) → D (Option (List Action))
  | 0, _, _ => .error .recursionTooDeep
  | fuel+1, k, o =>
    match o.lookup k with
    | none => .ok none
    | some j =>
      if j.isNull then .ok none
      else
        match j with
        | .arr js => (decodeActionsF fuel js).map some
        | _ => .error (.typeMismatch k)
termination_by structural fuel _ _ => fuel

/-- Extraction of an optional single-action field. -/
def actionFieldF : Nat → String → List (String × Json) → D (Option Action)
  | 0, _, _ => .error .recursionTooDeep
  | fuel+1, k, o =>
    match o.lookup k with
    | none => .ok none
    | some j =>
      if j.isNull then .ok none
      else (decodeActionF fuel j).map some
termination_by structural fuel _ _ => fuel

def decodeCardElementsF : Nat → List Json → D (List CardElement)
  | 0, _ => .error .recursionTooDeep
  | _+1, [] => .ok []
  | fuel+1, j :: js =>
    match decodeCardElementF fuel j with
    | .error e => .error e
    | .ok e => (decodeCardElementsF fuel js).map (e :: ·)
termination_by structural fuel _ => fuel

/-- Deserialization of a body node: extract the discriminant with
`scanTag`, look it up in the closed node table, and hand the remaining
entries to the variant decoder. -/
def decodeCardElementF : Nat → Json → D CardElement
  | 0, _ => .error .recursionTooDeep
  | fuel+1, .obj o =>
    match scanTag o with
    | .error e => .error e
    | .ok (t, rest) =>
      if t = "TextBlock" then (decodeTextBlock rest).map .TextBlock
      else if t = "Container" then (decodeContainerF fuel rest).map .Container
      else if t = "ColumnSet" then (decodeColumnSetF fuel rest).map .ColumnSet
      else if t = "Image" then (decodeImageF fuel rest).map .Image
      else if t = "ActionSet" then (decodeActionSetF fuel rest).map .ActionSet
      else if t = "FactSet" then (decodeFactSet rest).map .FactSet
      else if t = "RichTextBlock" then (decodeRichTextBlock rest).map .RichTextBlock
      else if t = "Input.Text" then (decodeInputText rest).map .InputText
      else if t = "Input.Number" then (decodeInputNumber rest).map .InputNumber
      else if t = "Input.Date" then (decodeInputDate rest).map .InputDate
      else if t = "Input.Time" then (decodeInputTime rest).map .InputTime
      else if t = "Input.Toggle" then (decodeInputToggle rest).map .InputToggle
      else if t = "Input.ChoiceSet" then (decodeInputChoiceSet rest).map .InputChoiceSet
      else .error (.unknownVariantTag t)
  | _+1, _ => .error (.typeMismatch "CardElement")
termination_by structural fuel _ => fuel

def decodeContainerF : Nat → List (String × Json) → D Container
  | 0, _ => .error .recursionTooDeep
  | fuel+1, o =>
    assembleContainer o (elementsFieldF fuel "items" o)
      (actionFieldF fuel "selectAction" o)
termination_by structural fuel _ => fuel

def decodeColumnSetF : Nat → List (String × Json) → D ColumnSet
  | 0, _ => .error .recursionTooDeep
  | fuel+1, o =>
    match o.lookup "columns" with
    | none => .error (.missingField "columns")
    | some (.arr js) => (decodeColumnsF fuel js).map ColumnSet.mk
    | some _ => .error (.typeMismatch "columns")
termination_by structural fuel _ => fuel

def decodeColumnsF : Nat → List Json → D (List Column)
  | 0, _ => .error .recursionTooDeep
  | _+1, [] => .ok []
  | fuel+1, j :: js =>
    match decodeColumnF fuel j with
    | .error e => .error e
    | .ok c => (decodeColumnsF fuel js).map (c :: ·)
termination_by structural fuel _ => fuel

def decodeColumnF : Nat → Json → D Column
  | 0, _ => .error .recursionTooDeep
  | fuel+1, .obj o => assembleColumn o (elementsFieldF fuel "items" o)
  | _+1, _ => .error (.typeMismatch "Column")
termination_by structural fuel _ => fuel

def decodeImageF : Nat → List (String × Json) → D Image
  | 0, _ => .error .recursionTooDeep
  | fuel+1, o => assembleImage o (actionFieldF fuel "selectAction" o)
termination_by structural fuel _ => fuel

def decodeActionSetF : Nat → List (String × Json) → D ActionSet
  | 0, _ => .error .recursionTooDeep
  | fuel+1, o =>
    match o.lookup "actions" with
    | none => .error (.missingField "actions")
    | some (.arr js) => (decodeActionsF fuel js).map ActionSet.mk
    | some _ => .error (.typeMismatch "actions")
termination_by structural fuel _ => fuel

def decodeActionsF : Nat → List Json → D (List Action)
  | 0, _ => .error .recursionTooDeep
  | _+1, [] => .ok []
  | fuel+1, j :: js =>
    match decodeActionF fuel j with
    | .error e => .error e
    | .ok a => (decodeActionsF fuel js).map (a :: ·)
termination_by structural fuel _ => fuel

/-- Deserialization of an action: the dotted discriminant selects one of
the four closed variants. -/
def decodeActionF : Nat → Json → D Action
  | 0, _ => .error .recursionTooDeep
  | fuel+1, .obj o =>
    match scanTag o with
    | .error e => .error e
    | .ok (t, rest) =>
      if t = "Action.OpenUrl" then (decodeOpenUrlAction rest).map .OpenUrl
      else if t = "Action.Submit" then (decodeSubmitAction rest).map .Submit
      else if t = "Action.ShowCard" then (decodeShowCardActionF fuel rest).map .ShowCard
      else if t = "Action.ToggleVisibility" then
        (decodeToggleVisibilityAction rest).map .ToggleVisibility
      else .error (.unknownVariantTag t)
  | _+1, _ => .error (.typeMismatch "Action")
termination_by structural fuel _ => fuel

def decodeShowCardActionF : Nat → List (String × Json) → D ShowCardAction
  | 0, _ => .error .recursionTooDeep
  | fuel+1, o =>
    assembleShowCard o
      (match o.lookup "card" with
        | none => .error (.missingField "card")
        | some j => decodeAdaptiveCardF fuel j)
termination_by structural fuel _ => fuel

end

/-- Deserialization of the root document; the fuel bound strictly
dominates the recursion depth of any input. -/
def decodeAdaptiveCard (j : Json) : D AdaptiveCard :=
  decodeAdaptiveCardF (sizeJ j * 4 + 4) j

/-- Deserialization of a body node. -/
def decodeCardElement (j : Json) : D CardElement :=
  decodeCardElementF (sizeJ j * 4 + 4) j

/-- Deserialization of an action. -/
def decodeAction (j : Json) : D Action :=
  decodeActionF (sizeJ j * 4 + 4) j

/-- Deserialization of a column object. -/
def decodeColumn (j : Json) : D Column :=
  decodeColumnF (sizeJ j * 4 + 4) j

/-- Deserialization of a container from its entries. -/
def decodeContainer (o : List (String × Json)) : D Container :=
  decodeContainerF (sizeJE o * 4 + 3) o

/-- Deserialization of a column set from its entries. -/
def decodeColumnSet (o : List (String × Json)) : D ColumnSet :=
  decodeColumnSetF (sizeJE o * 4 + 3) o

/-- Deserialization of an image from its entries. -/
def decodeImage (o : List (String × Json)) : D Image :=
  decodeImageF (sizeJE o * 4 + 3) o

/-- Deserialization of an action set from its entries. -/
def decodeActionSet (o : List (String × Json)) : D ActionSet :=
  decodeActionSetF (sizeJE o * 4 + 3) o

/-- Deserialization of a show-card action from its entries. -/
def decodeShowCardAction (o : List (String × Json)) : D ShowCardAction :=
  decodeShowCardActionF (sizeJE o * 4 + 3) o

/-- Deserialization of a body-node list. -/
def decodeCardElements (js : List Json) : D (List CardElement) :=
  decodeCardElementsF (sizeJL js * 4 + 1) js

/-- Deserialization of an action list. -/
def decodeActions (js : List Json) : D (List Action) :=
  decodeActionsF (sizeJL js * 4 + 1) js

/-- Deserialization of a column list. -/
def decodeColumns (js : List Json) : D (List Column) :=
  decodeColumnsF (sizeJL js * 4 + 1) js

end ACard

namespace ACard

mutual

/-- Values of the model whose wire image decodes back to the same value.
Three things can break the round trip: a `ColumnSet` node (its duplicated
discriminant aborts decoding), a submit action whose free-form `data` is
the explicit JSON null (decoded back as "no value"), and a `u32` field
outside the range Rust's type enforces statically. -/
def cleanCard : AdaptiveCard → Bool
  | .mk _ _ body _ actions select_action _ _ _ _ _ =>
    cleanElements body && cleanOptActions actions && cleanOptAction select_action

def cleanElements : List CardElement → Bool
  | [] => true
  | e :: es => cleanElement e && cleanElements es

def cleanElement : CardElement → Bool
  | .TextBlock tb => u32Ok tb.max_lines
  | .Container c => cleanContainer c
  | .ColumnSet _ => false
  | .Image img => cleanImage img
  | .ActionSet acts => cleanActionSet acts
  | .FactSet _ => true
  | .RichTextBlock _ => true
  | .InputText x => u32Ok x.max_length
  | .InputNumber _ => true
  | .InputDate _ => true
  | .InputTime _ => true
  | .InputToggle _ => true
  | .InputChoiceSet _ => true

def cleanContainer : Container → Bool
  | .mk items _ _ select_action _ _ _ _ _ _ _ =>
    cleanElements items && cleanOptAction select_action

def cleanImage : Image → Bool
  | .mk _ _ _ _ _ select_action _ _ _ _ _ _ => cleanOptAction select_action

def cleanActionSet : ActionSet → Bool
  | .mk actions => cleanActions actions

def cleanActions : List Action → Bool
  | [] => true
  | a :: rest => cleanAction a && cleanActions rest

def cleanAction : Action → Bool
  | .OpenUrl _ => true
  | .Submit a => dataOk a.data
  | .ShowCard a => cleanShowCard a
  | .ToggleVisibility _ => true

def cleanShowCard : ShowCardAction → Bool
  | .mk _ card _ _ _ _ _ _ => cleanCard card

def cleanOptAction : Option Action → Bool
  | none => true
  | some a => cleanAction a

def cleanOptActions : Option (List Action) → Bool
  | none => true
  | some l => cleanActions l

end

/-- The optional-action chunk is an `optE` chunk of the action encoder. -/
theorem encodeOptAction_eq (k : String) (v : Option Action) :
    encodeOptAction k v = optE k encodeAction v := by
  cases v <;> rfl

/-- The optional-action-list chunk is an `optE` chunk as well. -/
theorem encodeOptActions_eq (k : String) (v : Option (List Action)) :
    encodeOptActions k v = optE k (fun l => .arr (encodeActions l)) v := by
  cases v <;> rfl

/-- An encoded action is always a JSON object, never null. -/
theorem encodeAction_isNull (a : Action) : (encodeAction a).isNull = false := by
  cases a <;> rfl

/-- Reduction of the discriminant scan over an encoder's output. -/
theorem scanTag_cons_type (t : String) (rest : List (String × Json))
    (h : hasKey "type" rest = false) :
    scanTag (("type", .str t) :: rest) = .ok (t, rest) := by
  simp [scanTag, h]

theorem hasKey_type_textBlock (tb : TextBlock) :
    hasKey "type" (encodeTextBlock tb) = false := by
  simp [encodeTextBlock, hasKey_cons, hasKey_append, hasKey_optE]

theorem hasKey_type_richTextBlock (r : RichTextBlock) :
    hasKey "type" (encodeRichTextBlock r) = false := by
  simp [encodeRichTextBlock, hasKey_cons, hasKey_append, hasKey_optE]

theorem hasKey_type_factSet (fs : FactSet) :
    hasKey "type" (encodeFactSet fs) = false := by
  simp [encodeFactSet, hasKey_cons, hasKey_nil]

theorem hasKey_type_inputText (x : InputText) :
    hasKey "type" (encodeInputText x) = false := by
  simp [encodeInputText, hasKey_cons, hasKey_append, hasKey_optE]

theorem hasKey_type_inputNumber (x : InputNumber) :
    hasKey "type" (encodeInputNumber x) = false := by
  simp [encodeInputNumber, hasKey_cons, hasKey_append, hasKey_optE]

theorem hasKey_type_inputDate (x : InputDate) :
    hasKey "type" (encodeInputDate x) = false := by
  simp [encodeInputDate, hasKey_cons, hasKey_append, hasKey_optE]

theorem hasKey_type_inputTime (x : InputTime) :
    hasKey "type" (encodeInputTime x) = false := by
  simp [encodeInputTime, hasKey_cons, hasKey_append, hasKey_optE]

theorem hasKey_type_inputToggle (x : InputToggle) :
    hasKey "type" (encodeInputToggle x) = false := by
  simp [encodeInputToggle, hasKey_cons, hasKey_append, hasKey_optE]

theorem hasKey_type_inputChoiceSet (x : InputChoiceSet) :
    hasKey "type" (encodeInputChoiceSet x) = false := by
  simp [encodeInputChoiceSet, hasKey_cons, hasKey_append, hasKey_optE]

theorem hasKey_type_openUrl (a : OpenUrlAction) :
    hasKey "type" (encodeOpenUrlAction a) = false := by
  simp [encodeOpenUrlAction, hasKey_cons, hasKey_append, hasKey_optE]

theorem hasKey_type_submit (a : SubmitAction) :
    hasKey "type" (encodeSubmitAction a) = false := by
  simp [encodeSubmitAction, hasKey_cons, hasKey_append, hasKey_optE]

theorem hasKey_type_toggleVisibility (a : ToggleVisibilityAction) :
    hasKey "type" (encodeToggleVisibilityAction a) = false := by
  simp [encodeToggleVisibilityAction, hasKey_cons, hasKey_append, hasKey_optE]

theorem hasKey_type_container (c : Container) :
    hasKey "type" (encodeContainer c) = false := by
  obtain ⟨items, style, spacing, sa, vca, bleed, mh, id, sep, h, iv⟩ := c
  simp [encodeContainer, hasKey_cons, hasKey_append, hasKey_optE, encodeOptAction_eq]

theorem hasKey_type_image (img : Image) :
    hasKey "type" (encodeImage img) = false := by
  obtain ⟨url, size, at', bc, ha, sa, w, id, sep, sp, h, iv⟩ := img
  simp [encodeImage, hasKey_cons, hasKey_append, hasKey_optE, encodeOptAction_eq]

theorem hasKey_type_actionSet (acts : ActionSet) :
    hasKey "type" (encodeActionSet acts) = false := by
  obtain ⟨actions⟩ := acts
  simp [encodeActionSet, hasKey_cons, hasKey_nil]

theorem hasKey_type_showCard (a : ShowCardAction) :
    hasKey "type" (encodeShowCardAction a) = false := by
  obtain ⟨title, card, id, iu, style, tooltip, ie, mode⟩ := a
  simp [encodeShowCardAction, hasKey_cons, hasKey_append, hasKey_optE, encodeOptAction_eq]

/-- Round trip of the optional Teams block. -/
theorem optD_msteams (v : Option MsTeams) :
    optD decodeMsTeamsJ (v.map (fun m => .obj (encodeMsTeams m))) = .ok v :=
  optD_roundtrip decode_encode_msTeams (fun _ => rfl) v

end ACard

namespace ACard

theorem decode_token_containerStyle (v : ContainerStyle) :
    decodeContainerStyle (.str v.token) = .ok v := by
  cases v <;> rfl

end ACard

namespace ACard

/-- Lookup helpers for the fueled sub-decoders: extraction of a required
array-of-nodes field over an already-computed lookup. -/
theorem elementsFieldF_lookup {m : Nat} {k : String} {o : List (String × Json)}
    {es : List CardElement}
    (hlk : o.lookup k = some (.arr (encodeCardElements es)))
    (h : decodeCardElementsF m (encodeCardElements es) = .ok es) :
    elementsFieldF (m + 1) k o = .ok es := by
  simp [elementsFieldF, hlk, h]

/-- Master round-trip induction over the fuel parameter of the recursive
decoders: every clean value whose encoding fits under the fuel bound
decodes back to itself, one component per decoder of the mutual cluster. -/
theorem roundtripF (fuel : Nat) :
    (∀ c : AdaptiveCard, cleanCard c = true →
      sizeJ (encodeAdaptiveCard c) * 4 + 4 ≤ fuel →
      decodeAdaptiveCardF fuel (encodeAdaptiveCard c) = .ok c) ∧
    (∀ es : List CardElement, cleanElements es = true →
      sizeJL (encodeCardElements es) * 4 + 1 ≤ fuel →
      decodeCardElementsF fuel (encodeCardElements es) = .ok es) ∧
    (∀ e : CardElement, cleanElement e = true →
      sizeJ (encodeCardElement e) * 4 + 4 ≤ fuel →
      decodeCardElementF fuel (encodeCardElement e) = .ok e) ∧
    (∀ ct : Container, cleanContainer ct = true →
      sizeJE (encodeContainer ct) * 4 + 3 ≤ fuel →
      decodeContainerF fuel (encodeContainer ct) = .ok ct) ∧
    (∀ img : Image, cleanImage img = true →
      sizeJE (encodeImage img) * 4 + 3 ≤ fuel →
      decodeImageF fuel (encodeImage img) = .ok img) ∧
    (∀ acts : ActionSet, cleanActionSet acts = true →
      sizeJE (encodeActionSet acts) * 4 + 3 ≤ fuel →
      decodeActionSetF fuel (encodeActionSet acts) = .ok acts) ∧
    (∀ l : List Action, cleanActions l = true →
      sizeJL (encodeActions l) * 4 + 1 ≤ fuel →
      decodeActionsF fuel (encodeActions l) = .ok l) ∧
    (∀ a : Action, cleanAction a = true →
      sizeJ (encodeAction a) * 4 + 4 ≤ fuel →
      decodeActionF fuel (encodeAction a) = .ok a) ∧
    (∀ sca : ShowCardAction, cleanShowCard sca = true →
      sizeJE (encodeShowCardAction sca) * 4 + 3 ≤ fuel →
      decodeShowCardActionF fuel (encodeShowCardAction sca) = .ok sca) := by
  induction fuel using Nat.strong_induction_on with
  | _ fuel IH =>
  refine ⟨?_, ?_, ?_, ?_, ?_, ?_, ?_, ?_, ?_⟩
  · -- root document
    intro c hcl hsz
    obtain ⟨schema, version, body, msteams, actions, sa, ft, mh, vca, rtl, lang⟩ := c
    simp only [cleanCard, Bool.and_eq_true] at hcl
    obtain ⟨⟨hclb, hcla⟩, hclsa⟩ := hcl
    cases fuel with
    | zero => omega
    | succ m =>
      cases m with
      | zero =>
        simp only [encodeAdaptiveCard, sizeJ, sizeJE] at hsz
        omega
      | succ m =>
        cases actions with
        | none =>
          cases sa with
          | none =>
            simp only [encodeAdaptiveCard, encodeOptActions, encodeOptAction,
              sizeJ, sizeJE, sizeJE_append, List.nil_append] at hsz
            have hbody := (IH m (by omega)).2.1 body hclb (by omega)
            simp [encodeAdaptiveCard, encodeOptActions, encodeOptAction,
              decodeAdaptiveCardF, elementsFieldF, actionsFieldF, actionFieldF,
              assembleCard, lookup_cons, lookup_optE, lookup_optE_last,
              hbody, reqD, asStr, decode_token_version, optD_msteams,
              optD_asBool, optD_asStr,
              optD_token decode_token_verticalContentAlignment, Except.map]
            rfl
          | some a =>
            simp only [cleanOptAction] at hclsa
            simp only [encodeAdaptiveCard, encodeOptActions, encodeOptAction,
              sizeJ, sizeJE, sizeJE_append, List.nil_append, List.cons_append] at hsz
            have hbody := (IH m (by omega)).2.1 body hclb (by omega)
            have ha := (IH m (by omega)).2.2.2.2.2.2.2.1 a hclsa (by omega)
            simp [encodeAdaptiveCard, encodeOptActions, encodeOptAction,
              decodeAdaptiveCardF, elementsFieldF, actionsFieldF, actionFieldF,
              assembleCard, lookup_cons, lookup_optE, lookup_optE_last,
              hbody, ha, reqD, asStr, decode_token_version, optD_msteams,
              optD_asBool, optD_asStr, encodeAction_isNull,
              optD_token decode_token_verticalContentAlignment, Except.map]
            rfl
        | some la =>
          simp only [cleanOptActions] at hcla
          cases sa with
          | none =>
            simp only [encodeAdaptiveCard, encodeOptActions, encodeOptAction,
              sizeJ, sizeJE, sizeJE_append, List.nil_append, List.cons_append] at hsz
            have hbody := (IH m (by omega)).2.1 body hclb (by omega)
            have hla := (IH m (by omega)).2.2.2.2.2.2.1 la hcla (by omega)
            simp [encodeAdaptiveCard, encodeOptActions, encodeOptAction,
              decodeAdaptiveCardF, elementsFieldF, actionsFieldF, actionFieldF,
              assembleCard, lookup_cons, lookup_optE, lookup_optE_last,
              hbody, hla, reqD, asStr, decode_token_version, optD_msteams,
              optD_asBool, optD_asStr, Json.isNull,
              optD_token decode_token_verticalContentAlignment, Except.map]
            rfl
          | some a =>
            simp only [cleanOptAction] at hclsa
            simp only [encodeAdaptiveCard, encodeOptActions, encodeOptAction,
              sizeJ, sizeJE, sizeJE_append, List.nil_append, List.cons_append] at hsz
            have hbody := (IH m (by omega)).2.1 body hclb (by omega)
            have hla := (IH m (by omega)).2.2.2.2.2.2.1 la hcla (by omega)
            have ha := (IH m (by omega)).2.2.2.2.2.2.2.1 a hclsa (by omega)
            have hn : Json.isNull (encodeAction a) = false := encodeAction_isNull a
            simp only [Json.isNull] at hn
            simp [encodeAdaptiveCard, encodeOptActions, encodeOptAction,
              decodeAdaptiveCardF, elementsFieldF, actionsFieldF, actionFieldF,
              assembleCard, lookup_cons, lookup_optE, lookup_optE_last,
              hbody, hla, ha, hn, reqD, asStr, decode_token_version, optD_msteams,
              optD_asBool, optD_asStr, Json.isNull, encodeAction_isNull,
              optD_token decode_token_verticalContentAlignment, Except.map]
            rfl
  · -- node lists
    intro es hcl hsz
    cases fuel with
    | zero => omega
    | succ m =>
      cases es with
      | nil => simp [encodeCardElements, decodeCardElementsF]
      | cons e tl =>
        simp only [cleanElements, Bool.and_eq_true] at hcl
        simp only [encodeCardElements, sizeJL] at hsz
        have he := (IH m (by omega)).2.2.1 e hcl.1 (by omega)
        have htl := (IH m (by omega)).2.1 tl hcl.2 (by omega)
        simp [encodeCardElements, decodeCardElementsF, he, htl, Except.map]
  · -- single node
    intro e hcl hsz
    cases fuel with
    | zero => omega
    | succ m =>
      cases e with
      | TextBlock tb =>
        simp only [cleanElement] at hcl
        simp [encodeCardElement, decodeCardElementF,
          scanTag_cons_type _ _ (hasKey_type_textBlock tb),
          decode_encode_textBlock tb hcl, Except.map]
      | Container c =>
        simp only [cleanElement] at hcl
        simp only [encodeCardElement, sizeJ, sizeJE] at hsz
        have hc := (IH m (by omega)).2.2.2.1 c hcl (by omega)
        simp [encodeCardElement, decodeCardElementF,
          scanTag_cons_type _ _ (hasKey_type_container c), hc, Except.map]
      | ColumnSet cs => simp [cleanElement] at hcl
      | Image img =>
        simp only [cleanElement] at hcl
        simp only [encodeCardElement, sizeJ, sizeJE] at hsz
        have hi := (IH m (by omega)).2.2.2.2.1 img hcl (by omega)
        simp [encodeCardElement, decodeCardElementF,
          scanTag_cons_type _ _ (hasKey_type_image img), hi, Except.map]
      | ActionSet acts =>
        simp only [cleanElement] at hcl
        simp only [encodeCardElement, sizeJ, sizeJE] at hsz
        have hs := (IH m (by omega)).2.2.2.2.2.1 acts hcl (by omega)
        simp [encodeCardElement, decodeCardElementF,
          scanTag_cons_type _ _ (hasKey_type_actionSet acts), hs, Except.map]
      | FactSet fs =>
        simp [encodeCardElement, decodeCardElementF,
          scanTag_cons_type _ _ (hasKey_type_factSet fs),
          decode_encode_factSet fs, Except.map]
      | RichTextBlock r =>
        simp [encodeCardElement, decodeCardElementF,
          scanTag_cons_type _ _ (hasKey_type_richTextBlock r),
          decode_encode_richTextBlock r, Except.map]
      | InputText x =>
        simp only [cleanElement] at hcl
        simp [encodeCardElement, decodeCardElementF,
          scanTag_cons_type _ _ (hasKey_type_inputText x),
          decode_encode_inputText x hcl, Except.map]
      | InputNumber x =>
        simp [encodeCardElement, decodeCardElementF,
          scanTag_cons_type _ _ (hasKey_type_inputNumber x),
          decode_encode_inputNumber x, Except.map]
      | InputDate x =>
        simp [encodeCardElement, decodeCardElementF,
          scanTag_cons_type _ _ (hasKey_type_inputDate x),
          decode_encode_inputDate x, Except.map]
      | InputTime x =>
        simp [encodeCardElement, decodeCardElementF,
          scanTag_cons_type _ _ (hasKey_type_inputTime x),
          decode_encode_inputTime x, Except.map]
      | InputToggle x =>
        simp [encodeCardElement, decodeCardElementF,
          scanTag_cons_type _ _ (hasKey_type_inputToggle x),
          decode_encode_inputToggle x, Except.map]
      | InputChoiceSet x =>
        simp [encodeCardElement, decodeCardElementF,
          scanTag_cons_type _ _ (hasKey_type_inputChoiceSet x),
          decode_encode_inputChoiceSet x, Except.map]
  · -- container node
    intro ct hcl hsz
    obtain ⟨items, style, spacing, sa, vca, bleed, mh, id, sep, height, iv⟩ := ct
    simp only [cleanContainer, Bool.and_eq_true] at hcl
    obtain ⟨hci, hcsa⟩ := hcl
    cases fuel with
    | zero => omega
    | succ m =>
      cases m with
      | zero =>
        simp only [encodeContainer, sizeJE, sizeJ] at hsz
        omega
      | succ m =>
        cases sa with
        | none =>
          simp only [encodeContainer, encodeOptAction, sizeJE, sizeJ,
            sizeJE_append, List.nil_append] at hsz
          have hi := (IH m (by omega)).2.1 items hci (by omega)
          simp [encodeContainer, encodeOptAction, decodeContainerF,
            elementsFieldF, actionFieldF, assembleContainer,
            lookup_cons, lookup_optE, lookup_optE_last, hi,
            optD_token decode_token_containerStyle,
            optD_token decode_token_spacing,
            optD_token decode_token_verticalContentAlignment,
            optD_token decode_token_height,
            optD_asBool, optD_asStr, Except.map]
          rfl
        | some a =>
          simp only [cleanOptAction] at hcsa
          simp only [encodeContainer, encodeOptAction, sizeJE, sizeJ,
            sizeJE_append, List.nil_append, List.cons_append] at hsz
          have hi := (IH m (by omega)).2.1 items hci (by omega)
          have ha := (IH m (by omega)).2.2.2.2.2.2.2.1 a hcsa (by omega)
          simp [encodeContainer, encodeOptAction, decodeContainerF,
            elementsFieldF, actionFieldF, assembleContainer,
            lookup_cons, lookup_optE, lookup_optE_last, hi, ha,
            encodeAction_isNull,
            optD_token decode_token_containerStyle,
            optD_token decode_token_spacing,
            optD_token decode_token_verticalContentAlignment,
            optD_token decode_token_height,
            optD_asBool, optD_asStr, Except.map]
          rfl
  · -- image node
    intro img hcl hsz
    obtain ⟨url, size, at_, bc, ha_, sa, width, id, sep, spacing, height, iv⟩ := img
    simp only [cleanImage] at hcl
    cases fuel with
    | zero => omega
    | succ m =>
      cases m with
      | zero =>
        simp only [encodeImage, sizeJE, sizeJ] at hsz
        omega
      | succ m =>
        cases sa with
        | none =>
          simp [encodeImage, encodeOptAction, decodeImageF, actionFieldF,
            assembleImage, lookup_cons, lookup_optE, lookup_optE_last,
            reqD, asStr,
            optD_token decode_token_imageSize,
            optD_token decode_token_horizontalAlignment,
            optD_token decode_token_spacing,
            optD_token decode_token_height,
            optD_asBool, optD_asStr, Except.map]
          rfl
        | some a =>
          simp only [cleanOptAction] at hcl
          simp only [encodeImage, encodeOptAction, sizeJE, sizeJ,
            sizeJE_append, List.nil_append, List.cons_append] at hsz
          have ha := (IH m (by omega)).2.2.2.2.2.2.2.1 a hcl (by omega)
          simp [encodeImage, encodeOptAction, decodeImageF, actionFieldF,
            assembleImage, lookup_cons, lookup_optE, lookup_optE_last,
            reqD, asStr, ha, encodeAction_isNull,
            optD_token decode_token_imageSize,
            optD_token decode_token_horizontalAlignment,
            optD_token decode_token_spacing,
            optD_token decode_token_height,
            optD_asBool, optD_asStr, Except.map]
          rfl
  · -- action set node
    intro acts hcl hsz
    obtain ⟨l⟩ := acts
    simp only [cleanActionSet] at hcl
    cases fuel with
    | zero => omega
    | succ m =>
      simp only [encodeActionSet, sizeJE, sizeJ] at hsz
      have hl := (IH m (by omega)).2.2.2.2.2.2.1 l hcl (by omega)
      simp [encodeActionSet, decodeActionSetF, lookup_cons, hl, Except.map]
  · -- action lists
    intro l hcl hsz
    cases fuel with
    | zero => omega
    | succ m =>
      cases l with
      | nil => simp [encodeActions, decodeActionsF]
      | cons a tl =>
        simp only [cleanActions, Bool.and_eq_true] at hcl
        simp only [encodeActions, sizeJL] at hsz
        have ha := (IH m (by omega)).2.2.2.2.2.2.2.1 a hcl.1 (by omega)
        have htl := (IH m (by omega)).2.2.2.2.2.2.1 tl hcl.2 (by omega)
        simp [encodeActions, decodeActionsF, ha, htl, Except.map]
  · -- single action
    intro a hcl hsz
    cases fuel with
    | zero => omega
    | succ m =>
      cases a with
      | OpenUrl x =>
        simp [encodeAction, decodeActionF,
          scanTag_cons_type _ _ (hasKey_type_openUrl x),
          decode_encode_openUrlAction x, Except.map]
      | Submit x =>
        simp only [cleanAction] at hcl
        simp [encodeAction, decodeActionF,
          scanTag_cons_type _ _ (hasKey_type_submit x),
          decode_encode_submitAction x hcl, Except.map]
      | ShowCard x =>
        simp only [cleanAction] at hcl
        simp only [encodeAction, sizeJ, sizeJE] at hsz
        have hx := (IH m (by omega)).2.2.2.2.2.2.2.2 x hcl (by omega)
        simp [encodeAction, decodeActionF,
          scanTag_cons_type _ _ (hasKey_type_showCard x), hx, Except.map]
      | ToggleVisibility x =>
        simp [encodeAction, decodeActionF,
          scanTag_cons_type _ _ (hasKey_type_toggleVisibility x),
          decode_encode_toggleVisibilityAction x, Except.map]
  · -- show-card action
    intro sca hcl hsz
    obtain ⟨title, card, id, iu, style, tooltip, ie, mode⟩ := sca
    simp only [cleanShowCard] at hcl
    cases fuel with
    | zero => omega
    | succ m =>
      simp only [encodeShowCardAction, sizeJE, sizeJ, sizeJE_append] at hsz
      have hc := (IH m (by omega)).1 card hcl (by omega)
      simp [encodeShowCardAction, decodeShowCardActionF, assembleShowCard,
        lookup_cons, lookup_optE, lookup_optE_last, hc,
        optD_asStr, optD_asBool,
        optD_token decode_token_actionStyle,
        optD_token decode_token_actionMode, Except.map]
      rfl

end ACard

namespace ACard

/-- The entry list of a JSON object (empty for the other kinds). -/
def Json.entries : Json → List (String × Json)
  | .obj es => es
  | _ => []

/-- Round trip of the root document through the public entry points: every
clean value decodes back from its encoding. -/
theorem decode_encode_card {c : AdaptiveCard} (h : cleanCard c = true) :
    decodeAdaptiveCard (encodeAdaptiveCard c) = .ok c :=
  (roundtripF (sizeJ (encodeAdaptiveCard c) * 4 + 4)).1 c h (Nat.le_refl _)

/-- Round trip of a single body node through the public entry points. -/
theorem decode_encode_element {e : CardElement} (h : cleanElement e = true) :
    decodeCardElement (encodeCardElement e) = .ok e :=
  (roundtripF (sizeJ (encodeCardElement e) * 4 + 4)).2.2.1 e h (Nat.le_refl _)

/-- Round trip of a single action through the public entry points. -/
theorem decode_encode_action {a : Action} (h : cleanAction a = true) :
    decodeAction (encodeAction a) = .ok a :=
  (roundtripF (sizeJ (encodeAction a) * 4 + 4)).2.2.2.2.2.2.2.1 a h (Nat.le_refl _)

/-- The `card` entry of an encoded show-card action is exactly the
independent encoding of the nested document. -/
theorem lookup_card_showCard (sca : ShowCardAction) :
    List.lookup "card" (encodeShowCardAction sca) =
      some (encodeAdaptiveCard sca.card) := by
  obtain ⟨title, card, id, iu, style, tooltip, ie, mode⟩ := sca
  simp [encodeShowCardAction, ShowCardAction.card, lookup_optE, lookup_cons]

/-- Without a `"type"` entry the discriminant scan reports the missing
field. -/
theorem scanTag_missing : ∀ {o : List (String × Json)},
    hasKey "type" o = false → scanTag o = .error .missingDiscriminant := by
  intro o
  induction o with
  | nil => intro _; rfl
  | cons p rest ih =>
    intro h
    obtain ⟨k, v⟩ := p
    simp only [hasKey_cons, Bool.or_eq_false_iff, beq_eq_false_iff_ne, ne_eq] at h
    simp [scanTag, h.1, ih h.2]

/-- A node object without a discriminant is rejected with
`missingDiscriminant`. -/
theorem decodeCardElement_missing (o : List (String × Json))
    (h : hasKey "type" o = false) :
    decodeCardElement (.obj o) = .error .missingDiscriminant := by
  show decodeCardElementF ((sizeJ (.obj o) * 4 + 3) + 1) (.obj o) = _
  simp [decodeCardElementF, scanTag_missing h]

/-- An action object without a discriminant is rejected with
`missingDiscriminant`. -/
theorem decodeAction_missing (o : List (String × Json))
    (h : hasKey "type" o = false) :
    decodeAction (.obj o) = .error .missingDiscriminant := by
  show decodeActionF ((sizeJ (.obj o) * 4 + 3) + 1) (.obj o) = _
  simp [decodeActionF, scanTag_missing h]

/-- An absent key occurs zero times. -/
theorem countKey_eq_zero {k : String} : ∀ {l : List (String × Json)},
    hasKey k l = false → countKey k l = 0 := by
  intro l
  induction l with
  | nil => intro _; rfl
  | cons p rest ih =>
    intro h
    obtain ⟨k', v⟩ := p
    simp only [hasKey_cons, Bool.or_eq_false_iff, beq_eq_false_iff_ne, ne_eq] at h
    simp [countKey_cons, h.1, ih h.2]

/-- Whether a body node is the `ColumnSet` variant (the one whose struct
carries its own extra discriminant attribute). -/
def CardElement.isColumnSet : CardElement → Bool
  | .ColumnSet _ => true
  | _ => false

end ACard

namespace ACard

/-! Uniqueness of the literal tokens: a string decodes to an enumeration
variant only when it is that variant's own token. -/

theorem decodeTextSize_onlyToken {s : String} {v : TextSize}
    (h : decodeTextSize (.str s) = .ok v) : s = v.token := by
  rw [decodeTextSize.eq_def] at h
  split at h
  all_goals try (injection h with h2; subst h2)
  all_goals simp_all [TextSize.token]

theorem decodeTextWeight_onlyToken {s : String} {v : TextWeight}
    (h : decodeTextWeight (.str s) = .ok v) : s = v.token := by
  rw [decodeTextWeight.eq_def] at h
  split at h
  all_goals try (injection h with h2; subst h2)
  all_goals simp_all [TextWeight.token]

theorem decodeColor_onlyToken {s : String} {v : Color}
    (h : decodeColor (.str s) = .ok v) : s = v.token := by
  rw [decodeColor.eq_def] at h
  split at h
  all_goals try (injection h with h2; subst h2)
  all_goals simp_all [Color.token]

theorem decodeSpacing_onlyToken {s : String} {v : Spacing}
    (h : decodeSpacing (.str s) = .ok v) : s = v.token := by
  rw [decodeSpacing.eq_def] at h
  split at h
  all_goals try (injection h with h2; subst h2)
  all_goals simp_all [Spacing.token]

theorem decodeContainerStyle_onlyToken {s : String} {v : ContainerStyle}
    (h : decodeContainerStyle (.str s) = .ok v) : s = v.token := by
  rw [decodeContainerStyle.eq_def] at h
  split at h
  all_goals try (injection h with h2; subst h2)
  all_goals simp_all [ContainerStyle.token]

theorem decodeActionStyle_onlyToken {s : String} {v : ActionStyle}
    (h : decodeActionStyle (.str s) = .ok v) : s = v.token := by
  rw [decodeActionStyle.eq_def] at h
  split at h
  all_goals try (injection h with h2; subst h2)
  all_goals simp_all [ActionStyle.token]

theorem decodeActionMode_onlyToken {s : String} {v : ActionMode}
    (h : decodeActionMode (.str s) = .ok v) : s = v.token := by
  rw [decodeActionMode.eq_def] at h
  split at h
  all_goals try (injection h with h2; subst h2)
  all_goals simp_all [ActionMode.token]

theorem decodeAssociatedInputs_onlyToken {s : String} {v : AssociatedInputs}
    (h : decodeAssociatedInputs (.str s) = .ok v) : s = v.token := by
  rw [decodeAssociatedInputs.eq_def] at h
  split at h
  all_goals try (injection h with h2; subst h2)
  all_goals simp_all [AssociatedInputs.token]

theorem decodeTextInputStyle_onlyToken {s : String} {v : TextInputStyle}
    (h : decodeTextInputStyle (.str s) = .ok v) : s = v.token := by
  rw [decodeTextInputStyle.eq_def] at h
  split at h
  all_goals try (injection h with h2; subst h2)
  all_goals simp_all [TextInputStyle.token]

theorem decodeChoiceInputStyle_onlyToken {s : String} {v : ChoiceInputStyle}
    (h : decodeChoiceInputStyle (.str s) = .ok v) : s = v.token := by
  rw [decodeChoiceInputStyle.eq_def] at h
  split at h
  all_goals try (injection h with h2; subst h2)
  all_goals simp_all [ChoiceInputStyle.token]

theorem decodeHeight_onlyToken {s : String} {v : Height}
    (h : decodeHeight (.str s) = .ok v) : s = v.token := by
  rw [decodeHeight.eq_def] at h
  split at h
  all_goals try (injection h with h2; subst h2)
  all_goals simp_all [Height.token]

theorem decodeFontType_onlyToken {s : String} {v : FontType}
    (h : decodeFontType (.str s) = .ok v) : s = v.token := by
  rw [decodeFontType.eq_def] at h
  split at h
  all_goals try (injection h with h2; subst h2)
  all_goals simp_all [FontType.token]

theorem decodeHorizontalAlignment_onlyToken {s : String} {v : HorizontalAlignment}
    (h : decodeHorizontalAlignment (.str s) = .ok v) : s = v.token := by
  rw [decodeHorizontalAlignment.eq_def] at h
  split at h
  all_goals try (injection h with h2; subst h2)
  all_goals simp_all [HorizontalAlignment.token]

theorem decodeVerticalContentAlignment_onlyToken {s : String}
    {v : VerticalContentAlignment}
    (h : decodeVerticalContentAlignment (.str s) = .ok v) : s = v.token := by
  rw [decodeVerticalContentAlignment.eq_def] at h
  split at h
  all_goals try (injection h with h2; subst h2)
  all_goals simp_all [VerticalContentAlignment.token]

theorem decodeImageSize_onlyToken {s : String} {v : ImageSize}
    (h : decodeImageSize (.str s) = .ok v) : s = v.token := by
  rw [decodeImageSize.eq_def] at h
  split at h
  all_goals try (injection h with h2; subst h2)
  all_goals simp_all [ImageSize.token]

theorem decodeMsTeamsWidth_onlyToken {s : String} {v : MsTeamsWidth}
    (h : decodeMsTeamsWidth (.str s) = .ok v) : s = v.token := by
  rw [decodeMsTeamsWidth.eq_def] at h
  split at h
  all_goals try (injection h with h2; subst h2)
  all_goals simp_all [MsTeamsWidth.token]

end ACard

namespace ACard

/-! Concrete documents used by the claim statements. -/

/-- Innermost document of the three-level nesting scenario. -/
def nestedCard3 : AdaptiveCard := .mk "s3" .V1_3 [] none none none none none none none none

def nestedSca3 : ShowCardAction := .mk none nestedCard3 none none none none none none

def nestedCard2 : AdaptiveCard :=
  .mk "s2" .V1_3 [] none (some [.ShowCard nestedSca3]) none none none none none none

def nestedSca2 : ShowCardAction := .mk none nestedCard2 none none none none none none

def nestedCard1 : AdaptiveCard :=
  .mk "s1" .V1_3 [] none (some [.ShowCard nestedSca2]) none none none none none none

def nestedSca1 : ShowCardAction := .mk none nestedCard1 none none none none none none

/-- Document with a ShowCard action three levels deep. -/
def nestedCard0 : AdaptiveCard :=
  .mk "s0" .V1_2 [] none (some [.ShowCard nestedSca1]) none none none none none none

/-- C1 counterexample: a value constructible through the public
constructors whose decode-after-encode round trip fails outright — the
`ColumnSet` node's duplicated struct-level discriminant makes the derived
deserializer abort with a duplicate-field error. -/
theorem C1_counterexample :
    decodeAdaptiveCard (encodeAdaptiveCard
      (.mk "http://adaptivecards.io/schemas/adaptive-card.json" .V1_2
        [.ColumnSet (.mk [])] none none none none none none none none)) =
      .error (.duplicateField "type") := rfl

/-- C1: decoding the encoding of a value of the card model recovers the
value, for every value without a `ColumnSet` node, without a submit
action whose free-form data is the explicit JSON null, and whose `u32`
fields are in range (the amended domain); and the `card` entry of every
encoded show-card action is exactly the independent encoding of its
nested document, at every nesting level. -/
theorem C1_clean_roundtrip (c : AdaptiveCard) (sca : ShowCardAction)
    (h : cleanCard c = true) :
    decodeAdaptiveCard (encodeAdaptiveCard c) = .ok c ∧
    List.lookup "card" (encodeShowCardAction sca) =
      some (encodeAdaptiveCard sca.card) :=
  ⟨decode_encode_card h, lookup_card_showCard sca⟩

/-- C1 witness: the three-level nested show-card document round-trips and
its outer nesting level's `card` entry is the independent encoding of the
level-1 document. -/
theorem C1_witness :
    cleanCard nestedCard0 = true ∧
    (decodeAdaptiveCard (encodeAdaptiveCard nestedCard0) = .ok nestedCard0 ∧
     List.lookup "card" (encodeShowCardAction nestedSca1) =
       some (encodeAdaptiveCard nestedSca1.card)) :=
  ⟨rfl, C1_clean_roundtrip nestedCard0 nestedSca1 rfl⟩

/-- C2 counterexample: the string `"stretchX"` does not fail decoding —
untagged decoding tries the `Auto(String)` variant first, so every JSON
string succeeds as `Auto`. -/
theorem C2_counterexample :
    decodeColumnWidth (.str "stretchX") = .ok ⟨.Auto "stretchX"⟩ := rfl

/-- C2: the column-width decoder inspects the raw JSON kind — a `u32`
ranged number decodes to `Relative`, `"200px"`, `"auto"` and `"stretch"`
decode to the values the constructors `pixels 200`, `auto` and `stretch`
build (all `Auto`-variant wrappers), every other string also succeeds as
the `Auto` variant, and a non-string non-number shape fails with the
untagged-mismatch error. -/
theorem C2_width_decode (s : String) (n : Nat) (hn : n < 4294967296) :
    decodeColumnWidth (.num n) = .ok (ColumnWidth.weight n) ∧
    decodeColumnWidth (.str s) = .ok ⟨.Auto s⟩ ∧
    decodeColumnWidth (.str "200px") = .ok (ColumnWidth.pixels 200) ∧
    decodeColumnWidth (.str "auto") = .ok ColumnWidth.auto ∧
    decodeColumnWidth (.str "stretch") = .ok ColumnWidth.stretch ∧
    decodeColumnWidth .null = .error (.untaggedMismatch "ColumnWidthKind") := by
  refine ⟨?_, rfl, rfl, rfl, rfl, rfl⟩
  have hc : ((n : Rat)).den = 1 ∧ 0 ≤ ((n : Rat)).num ∧
      ((n : Rat)).num < 4294967296 := by
    refine ⟨Rat.den_natCast n, ?_, ?_⟩
    · rw [Rat.num_natCast]; exact Int.natCast_nonneg n
    · rw [Rat.num_natCast]; exact_mod_cast hn
  simp only [decodeColumnWidth]
  rw [if_pos hc, Rat.num_natCast, Int.toNat_natCast]
  rfl

/-- C2 witness: the decode table at the concrete inputs 200 and
`"stretchX"`. -/
theorem C2_witness :
    decodeColumnWidth (.num (200 : Nat)) = .ok (ColumnWidth.weight 200) ∧
    decodeColumnWidth (.str "stretchX") = .ok ⟨.Auto "stretchX"⟩ :=
  ⟨(C2_width_decode "stretchX" 200 (by norm_num)).1,
   (C2_width_decode "stretchX" 200 (by norm_num)).2.1⟩

/-- C3: encoding the version-1.3 document with the single greeting
TextBlock produces exactly the JSON object of the specification's literal
scenario. -/
theorem C3_hello_encoding :
    encodeAdaptiveCard
      (.mk "http://adaptivecards.io/schemas/adaptive-card.json" .V1_3
        [.TextBlock ⟨"Hello, Adaptive Card!", some .Large, some .Bolder,
          some true, some false, none, none, none, none, none, none, none,
          none, none⟩]
        none none none none none none none none) =
    .obj [("type", .str "AdaptiveCard"),
      ("$schema", .str "http://adaptivecards.io/schemas/adaptive-card.json"),
      ("version", .str "1.3"),
      ("body", .arr [.obj [("type", .str "TextBlock"),
        ("text", .str "Hello, Adaptive Card!"),
        ("size", .str "large"),
        ("weight", .str "bolder"),
        ("wrap", .bool true),
        ("isSubtle", .bool false)]])] := rfl

/-- C4: a node or action object whose discriminant is not in the closed
table fails with the unknown-variant error, and one with no discriminant
entry at all fails with the missing-discriminant error; no value is
returned in either case. -/
theorem C4_unknown_missing_discriminant :
    decodeAction (.obj [("type", .str "Action.DoesNotExist"),
      ("title", .str "x")]) =
      .error (.unknownVariantTag "Action.DoesNotExist") ∧
    decodeCardElement (.obj [("type", .str "Wobble"), ("text", .str "y")]) =
      .error (.unknownVariantTag "Wobble") ∧
    (∀ o : List (String × Json), hasKey "type" o = false →
      decodeCardElement (.obj o) = .error .missingDiscriminant) ∧
    (∀ o : List (String × Json), hasKey "type" o = false →
      decodeAction (.obj o) = .error .missingDiscriminant) :=
  ⟨rfl, rfl, fun o h => decodeCardElement_missing o h,
    fun o h => decodeAction_missing o h⟩

/-- Binding an option through a total some-valued function keeps
presence. -/
theorem isSome_bind_some {α β : Type} (x : Option α) (f : α → β) :
    (x.bind fun a => some (f a)).isSome = x.isSome := by
  cases x <;> rfl

/-- C5: for every optional field of the root document, of every node
variant (`ColumnSet`, `ActionSet` and `FactSet` have no optional fields),
and of every action variant, the field's key is on the wire exactly when
the field is set — an unset field's key is absent, never an explicit
null — and decoding an object carrying only the required keys leaves
every optional field unset. -/
theorem C5_optional_omission (c : AdaptiveCard) (tb : TextBlock)
    (r : RichTextBlock) (ct : Container) (img : Image) (it : InputText)
    (inb : InputNumber) (idt : InputDate) (itm : InputTime)
    (itg : InputToggle) (ics : InputChoiceSet) (ou : OpenUrlAction)
    (su : SubmitAction) (sca : ShowCardAction)
    (tv : ToggleVisibilityAction) :
    (hasKey "msteams" ((encodeAdaptiveCard c).entries) = c.msteams.isSome ∧
     hasKey "actions" ((encodeAdaptiveCard c).entries) = c.actions.isSome ∧
     hasKey "selectAction" ((encodeAdaptiveCard c).entries) = c.select_action.isSome ∧
     hasKey "fallbackText" ((encodeAdaptiveCard c).entries) = c.fallback_text.isSome ∧
     hasKey "minHeight" ((encodeAdaptiveCard c).entries) = c.min_height.isSome ∧
     hasKey "verticalContentAlignment" ((encodeAdaptiveCard c).entries) = c.vertical_content_alignment.isSome ∧
     hasKey "rtl" ((encodeAdaptiveCard c).entries) = c.rtl.isSome ∧
     hasKey "lang" ((encodeAdaptiveCard c).entries) = c.lang.isSome) ∧
    (hasKey "size" (encodeTextBlock tb) = tb.size.isSome ∧
     hasKey "weight" (encodeTextBlock tb) = tb.weight.isSome ∧
     hasKey "wrap" (encodeTextBlock tb) = tb.wrap.isSome ∧
     hasKey "isSubtle" (encodeTextBlock tb) = tb.is_subtle.isSome ∧
     hasKey "color" (encodeTextBlock tb) = tb.color.isSome ∧
     hasKey "horizontalAlignment" (encodeTextBlock tb) = tb.horizontal_alignment.isSome ∧
     hasKey "maxLines" (encodeTextBlock tb) = tb.max_lines.isSome ∧
     hasKey "fontType" (encodeTextBlock tb) = tb.font_type.isSome ∧
     hasKey "id" (encodeTextBlock tb) = tb.id.isSome ∧
     hasKey "separator" (encodeTextBlock tb) = tb.separator.isSome ∧
     hasKey "spacing" (encodeTextBlock tb) = tb.spacing.isSome ∧
     hasKey "height" (encodeTextBlock tb) = tb.height.isSome ∧
     hasKey "isVisible" (encodeTextBlock tb) = tb.is_visible.isSome) ∧
    (hasKey "horizontalAlignment" (encodeRichTextBlock r) = r.horizontal_alignment.isSome ∧
     hasKey "id" (encodeRichTextBlock r) = r.id.isSome ∧
     hasKey "separator" (encodeRichTextBlock r) = r.separator.isSome ∧
     hasKey "spacing" (encodeRichTextBlock r) = r.spacing.isSome ∧
     hasKey "height" (encodeRichTextBlock r) = r.height.isSome ∧
     hasKey "isVisible" (encodeRichTextBlock r) = r.is_visible.isSome) ∧
    (hasKey "style" (encodeContainer ct) = ct.style.isSome ∧
     hasKey "spacing" (encodeContainer ct) = ct.spacing.isSome ∧
     hasKey "selectAction" (encodeContainer ct) = ct.select_action.isSome ∧
     hasKey "verticalContentAlignment" (encodeContainer ct) = ct.vertical_content_alignment.isSome ∧
     hasKey "bleed" (encodeContainer ct) = ct.bleed.isSome ∧
     hasKey "minHeight" (encodeContainer ct) = ct.min_height.isSome ∧
     hasKey "id" (encodeContainer ct) = ct.id.isSome ∧
     hasKey "separator" (encodeContainer ct) = ct.separator.isSome ∧
     hasKey "height" (encodeContainer ct) = ct.height.isSome ∧
     hasKey "isVisible" (encodeContainer ct) = ct.is_visible.isSome) ∧
    (hasKey "size" (encodeImage img) = img.size.isSome ∧
     hasKey "altText" (encodeImage img) = img.alt_text.isSome ∧
     hasKey "backgroundColor" (encodeImage img) = img.background_color.isSome ∧
     hasKey "horizontalAlignment" (encodeImage img) = img.horizontal_alignment.isSome ∧
     hasKey "selectAction" (encodeImage img) = img.select_action.isSome ∧
     hasKey "width" (encodeImage img) = img.width.isSome ∧
     hasKey "id" (encodeImage img) = img.id.isSome ∧
     hasKey "separator" (encodeImage img) = img.separator.isSome ∧
     hasKey "spacing" (encodeImage img) = img.spacing.isSome ∧
     hasKey "height" (encodeImage img) = img.height.isSome ∧
     hasKey "isVisible" (encodeImage img) = img.is_visible.isSome) ∧
    (hasKey "isMultiline" (encodeInputText it) = it.is_multiline.isSome ∧
     hasKey "maxLength" (encodeInputText it) = it.max_length.isSome ∧
     hasKey "placeholder" (encodeInputText it) = it.placeholder.isSome ∧
     hasKey "regex" (encodeInputText it) = it.regex.isSome ∧
     hasKey "style" (encodeInputText it) = it.style.isSome ∧
     hasKey "value" (encodeInputText it) = it.value.isSome ∧
     hasKey "label" (encodeInputText it) = it.label.isSome ∧
     hasKey "isRequired" (encodeInputText it) = it.is_required.isSome ∧
     hasKey "errorMessage" (encodeInputText it) = it.error_message.isSome ∧
     hasKey "separator" (encodeInputText it) = it.separator.isSome ∧
     hasKey "spacing" (encodeInputText it) = it.spacing.isSome ∧
     hasKey "height" (encodeInputText it) = it.height.isSome ∧
     hasKey "isVisible" (encodeInputText it) = it.is_visible.isSome) ∧
    (hasKey "min" (encodeInputNumber inb) = inb.min.isSome ∧
     hasKey "max" (encodeInputNumber inb) = inb.max.isSome ∧
     hasKey "placeholder" (encodeInputNumber inb) = inb.placeholder.isSome ∧
     hasKey "value" (encodeInputNumber inb) = inb.value.isSome ∧
     hasKey "label" (encodeInputNumber inb) = inb.label.isSome ∧
     hasKey "isRequired" (encodeInputNumber inb) = inb.is_required.isSome ∧
     hasKey "errorMessage" (encodeInputNumber inb) = inb.error_message.isSome ∧
     hasKey "separator" (encodeInputNumber inb) = inb.separator.isSome ∧
     hasKey "spacing" (encodeInputNumber inb) = inb.spacing.isSome ∧
     hasKey "height" (encodeInputNumber inb) = inb.height.isSome ∧
     hasKey "isVisible" (encodeInputNumber inb) = inb.is_visible.isSome) ∧
    (hasKey "min" (encodeInputDate idt) = idt.min.isSome ∧
     hasKey "max" (encodeInputDate idt) = idt.max.isSome ∧
     hasKey "placeholder" (encodeInputDate idt) = idt.placeholder.isSome ∧
     hasKey "value" (encodeInputDate idt) = idt.value.isSome ∧
     hasKey "label" (encodeInputDate idt) = idt.label.isSome ∧
     hasKey "isRequired" (encodeInputDate idt) = idt.is_required.isSome ∧
     hasKey "errorMessage" (encodeInputDate idt) = idt.error_message.isSome ∧
     hasKey "separator" (encodeInputDate idt) = idt.separator.isSome ∧
     hasKey "spacing" (encodeInputDate idt) = idt.spacing.isSome ∧
     hasKey "height" (encodeInputDate idt) = idt.height.isSome ∧
     hasKey "isVisible" (encodeInputDate idt) = idt.is_visible.isSome) ∧
    (hasKey "min" (encodeInputTime itm) = itm.min.isSome ∧
     hasKey "max" (encodeInputTime itm) = itm.max.isSome ∧
     hasKey "placeholder" (encodeInputTime itm) = itm.placeholder.isSome ∧
     hasKey "value" (encodeInputTime itm) = itm.value.isSome ∧
     hasKey "label" (encodeInputTime itm) = itm.label.isSome ∧
     hasKey "isRequired" (encodeInputTime itm) = itm.is_required.isSome ∧
     hasKey "errorMessage" (encodeInputTime itm) = itm.error_message.isSome ∧
     hasKey "separator" (encodeInputTime itm) = itm.separator.isSome ∧
     hasKey "spacing" (encodeInputTime itm) = itm.spacing.isSome ∧
     hasKey "height" (encodeInputTime itm) = itm.height.isSome ∧
     hasKey "isVisible" (encodeInputTime itm) = itm.is_visible.isSome) ∧
    (hasKey "value" (encodeInputToggle itg) = itg.value.isSome ∧
     hasKey "valueOn" (encodeInputToggle itg) = itg.value_on.isSome ∧
     hasKey "valueOff" (encodeInputToggle itg) = itg.value_off.isSome ∧
     hasKey "wrap" (encodeInputToggle itg) = itg.wrap.isSome ∧
     hasKey "label" (encodeInputToggle itg) = itg.label.isSome ∧
     hasKey "isRequired" (encodeInputToggle itg) = itg.is_required.isSome ∧
     hasKey "errorMessage" (encodeInputToggle itg) = itg.error_message.isSome ∧
     hasKey "separator" (encodeInputToggle itg) = itg.separator.isSome ∧
     hasKey "spacing" (encodeInputToggle itg) = itg.spacing.isSome ∧
     hasKey "height" (encodeInputToggle itg) = itg.height.isSome ∧
     hasKey "isVisible" (encodeInputToggle itg) = itg.is_visible.isSome) ∧
    (hasKey "choices" (encodeInputChoiceSet ics) = ics.choices.isSome ∧
     hasKey "isMultiSelect" (encodeInputChoiceSet ics) = ics.is_multi_select.isSome ∧
     hasKey "style" (encodeInputChoiceSet ics) = ics.style.isSome ∧
     hasKey "value" (encodeInputChoiceSet ics) = ics.value.isSome ∧
     hasKey "placeholder" (encodeInputChoiceSet ics) = ics.placeholder.isSome ∧
     hasKey "wrap" (encodeInputChoiceSet ics) = ics.wrap.isSome ∧
     hasKey "label" (encodeInputChoiceSet ics) = ics.label.isSome ∧
     hasKey "isRequired" (encodeInputChoiceSet ics) = ics.is_required.isSome ∧
     hasKey "errorMessage" (encodeInputChoiceSet ics) = ics.error_message.isSome ∧
     hasKey "separator" (encodeInputChoiceSet ics) = ics.separator.isSome ∧
     hasKey "spacing" (encodeInputChoiceSet ics) = ics.spacing.isSome ∧
     hasKey "height" (encodeInputChoiceSet ics) = ics.height.isSome ∧
     hasKey "isVisible" (encodeInputChoiceSet ics) = ics.is_visible.isSome) ∧
    (hasKey "title" (encodeOpenUrlAction ou) = ou.title.isSome ∧
     hasKey "id" (encodeOpenUrlAction ou) = ou.id.isSome ∧
     hasKey "iconUrl" (encodeOpenUrlAction ou) = ou.icon_url.isSome ∧
     hasKey "style" (encodeOpenUrlAction ou) = ou.style.isSome ∧
     hasKey "tooltip" (encodeOpenUrlAction ou) = ou.tooltip.isSome ∧
     hasKey "isEnabled" (encodeOpenUrlAction ou) = ou.is_enabled.isSome ∧
     hasKey "mode" (encodeOpenUrlAction ou) = ou.mode.isSome) ∧
    (hasKey "title" (encodeSubmitAction su) = su.title.isSome ∧
     hasKey "data" (encodeSubmitAction su) = su.data.isSome ∧
     hasKey "associatedInputs" (encodeSubmitAction su) = su.associated_inputs.isSome ∧
     hasKey "id" (encodeSubmitAction su) = su.id.isSome ∧
     hasKey "iconUrl" (encodeSubmitAction su) = su.icon_url.isSome ∧
     hasKey "style" (encodeSubmitAction su) = su.style.isSome ∧
     hasKey "tooltip" (encodeSubmitAction su) = su.tooltip.isSome ∧
     hasKey "isEnabled" (encodeSubmitAction su) = su.is_enabled.isSome ∧
     hasKey "mode" (encodeSubmitAction su) = su.mode.isSome) ∧
    (hasKey "title" (encodeShowCardAction sca) = sca.title.isSome ∧
     hasKey "id" (encodeShowCardAction sca) = sca.id.isSome ∧
     hasKey "iconUrl" (encodeShowCardAction sca) = sca.icon_url.isSome ∧
     hasKey "style" (encodeShowCardAction sca) = sca.style.isSome ∧
     hasKey "tooltip" (encodeShowCardAction sca) = sca.tooltip.isSome ∧
     hasKey "isEnabled" (encodeShowCardAction sca) = sca.is_enabled.isSome ∧
     hasKey "mode" (encodeShowCardAction sca) = sca.mode.isSome) ∧
    (hasKey "title" (encodeToggleVisibilityAction tv) = tv.title.isSome ∧
     hasKey "id" (encodeToggleVisibilityAction tv) = tv.id.isSome ∧
     hasKey "iconUrl" (encodeToggleVisibilityAction tv) = tv.icon_url.isSome ∧
     hasKey "style" (encodeToggleVisibilityAction tv) = tv.style.isSome ∧
     hasKey "tooltip" (encodeToggleVisibilityAction tv) = tv.tooltip.isSome ∧
     hasKey "isEnabled" (encodeToggleVisibilityAction tv) = tv.is_enabled.isSome ∧
     hasKey "mode" (encodeToggleVisibilityAction tv) = tv.mode.isSome) ∧
    (decodeAdaptiveCard (.obj [("$schema", .str "s"), ("version", .str "1.2"),
      ("body", .arr [])]) =
      .ok (.mk "s" .V1_2 [] none none none none none none none none)) ∧
    (decodeTextBlock [("text", .str "t")] =
      .ok ⟨"t", none, none, none, none, none, none, none, none, none, none,
        none, none, none⟩) ∧
    (decodeRichTextBlock [("inlines", .arr [])] =
      .ok ⟨[], none, none, none, none, none, none⟩) ∧
    (decodeContainer [("items", .arr [])] =
      .ok (.mk [] none none none none none none none none none none)) ∧
    (decodeImage [("url", .str "u")] =
      .ok (.mk "u" none none none none none none none none none none none)) ∧
    (decodeInputText [("id", .str "i")] =
      .ok ⟨"i", none, none, none, none, none, none, none, none, none, none,
        none, none, none⟩) ∧
    (decodeInputNumber [("id", .str "i")] =
      .ok ⟨"i", none, none, none, none, none, none, none, none, none, none,
        none⟩) ∧
    (decodeInputDate [("id", .str "i")] =
      .ok ⟨"i", none, none, none, none, none, none, none, none, none, none,
        none⟩) ∧
    (decodeInputTime [("id", .str "i")] =
      .ok ⟨"i", none, none, none, none, none, none, none, none, none, none,
        none⟩) ∧
    (decodeInputToggle [("id", .str "i"), ("title", .str "t")] =
      .ok ⟨"i", "t", none, none, none, none, none, none, none, none, none,
        none, none⟩) ∧
    (decodeInputChoiceSet [("id", .str "i")] =
      .ok ⟨"i", none, none, none, none, none, none, none, none, none, none,
        none, none, none⟩) ∧
    (decodeOpenUrlAction [("url", .str "u")] =
      .ok ⟨none, "u", none, none, none, none, none, none⟩) ∧
    (decodeSubmitAction [] =
      .ok ⟨none, none, none, none, none, none, none, none, none⟩) ∧
    (decodeShowCardAction [("card", .obj [("$schema", .str "s"),
      ("version", .str "1.2"), ("body", .arr [])])] =
      .ok (.mk none (.mk "s" .V1_2 [] none none none none none none none none)
        none none none none none none)) ∧
    (decodeToggleVisibilityAction [("targetElements", .arr [])] =
      .ok ⟨none, [], none, none, none, none, none, none⟩) := by
  obtain ⟨schema, version, body, msteams, actions, sa, ft, mh, vca, rtl,
    lang⟩ := c
  obtain ⟨citems, cstyle, cspacing, csa, cvca, cbleed, cmh, cid, csep,
    cheight, civ⟩ := ct
  obtain ⟨iurl, isize, ialt, ibg, iha, isa, iwidth, iid, isep, ispacing,
    iheight, iiv⟩ := img
  obtain ⟨stitle, scard, sid, siu, sstyle, stt, sie, smode⟩ := sca
  refine ⟨⟨?_, ?_, ?_, ?_, ?_, ?_, ?_, ?_⟩, ⟨?_, ?_, ?_, ?_, ?_, ?_, ?_, ?_,
    ?_, ?_, ?_, ?_, ?_⟩, ⟨?_, ?_, ?_, ?_, ?_, ?_⟩, ⟨?_, ?_, ?_, ?_, ?_, ?_,
    ?_, ?_, ?_, ?_⟩, ⟨?_, ?_, ?_, ?_, ?_, ?_, ?_, ?_, ?_, ?_, ?_⟩, ⟨?_, ?_,
    ?_, ?_, ?_, ?_, ?_, ?_, ?_, ?_, ?_, ?_, ?_⟩, ⟨?_, ?_, ?_, ?_, ?_, ?_,
    ?_, ?_, ?_, ?_, ?_⟩, ⟨?_, ?_, ?_, ?_, ?_, ?_, ?_, ?_, ?_, ?_, ?_⟩, ⟨?_,
    ?_, ?_, ?_, ?_, ?_, ?_, ?_, ?_, ?_, ?_⟩, ⟨?_, ?_, ?_, ?_, ?_, ?_, ?_,
    ?_, ?_, ?_, ?_⟩, ⟨?_, ?_, ?_, ?_, ?_, ?_, ?_, ?_, ?_, ?_, ?_, ?_, ?_⟩,
    ⟨?_, ?_, ?_, ?_, ?_, ?_, ?_⟩, ⟨?_, ?_, ?_, ?_, ?_, ?_, ?_, ?_, ?_⟩, ⟨?_,
    ?_, ?_, ?_, ?_, ?_, ?_⟩, ⟨?_, ?_, ?_, ?_, ?_, ?_, ?_⟩, rfl, rfl, rfl,
    rfl, rfl, rfl, rfl, rfl, rfl, rfl, rfl, rfl, rfl, rfl, rfl⟩ <;>
    simp [encodeAdaptiveCard, encodeTextBlock, encodeRichTextBlock,
      encodeContainer, encodeImage, encodeInputText, encodeInputNumber,
      encodeInputDate, encodeInputTime, encodeInputToggle,
      encodeInputChoiceSet, encodeOpenUrlAction, encodeSubmitAction,
      encodeShowCardAction, encodeToggleVisibilityAction, encodeOptAction_eq,
      encodeOptActions_eq, Json.entries, hasKey_cons, hasKey_append,
      hasKey_optE, hasKey_nil, isSome_bind_some,
      AdaptiveCard.msteams, AdaptiveCard.actions,
      AdaptiveCard.select_action, AdaptiveCard.fallback_text,
      AdaptiveCard.min_height, AdaptiveCard.vertical_content_alignment,
      AdaptiveCard.rtl, AdaptiveCard.lang, Container.style, Container.spacing,
      Container.select_action, Container.vertical_content_alignment,
      Container.bleed, Container.min_height, Container.id, Container.separator,
      Container.height, Container.is_visible, Image.size, Image.alt_text,
      Image.background_color, Image.horizontal_alignment, Image.select_action,
      Image.width, Image.id, Image.separator, Image.spacing, Image.height,
      Image.is_visible, ShowCardAction.title, ShowCardAction.id,
      ShowCardAction.icon_url, ShowCardAction.style, ShowCardAction.tooltip,
      ShowCardAction.is_enabled, ShowCardAction.mode]

/-- C6 counterexample: the serialized `ColumnSet` node carries the
discriminant entry twice — once from the enum's internal tag and once
from the struct's own `tag = "type"` attribute. -/
theorem C6_counterexample :
    encodeCardElement (.ColumnSet (.mk [])) =
      .obj [("type", .str "ColumnSet"), ("type", .str "ColumnSet"),
        ("columns", .arr [])] := rfl

/-- C6: encoding a body node injects the literal discriminant entry at
the same level as the variant's own fields, exactly once for every
variant except `ColumnSet`, whose extra struct-level tag makes it appear
twice. -/
theorem C6_discriminant_count (e : CardElement) :
    countKey "type" (encodeCardElement e).entries =
      (if e.isColumnSet then 2 else 1) := by
  cases e with
  | TextBlock tb =>
    simp [encodeCardElement, Json.entries, CardElement.isColumnSet,
      countKey_cons, countKey_eq_zero (hasKey_type_textBlock tb)]
  | Container c =>
    simp [encodeCardElement, Json.entries, CardElement.isColumnSet,
      countKey_cons, countKey_eq_zero (hasKey_type_container c)]
  | ColumnSet cs => obtain ⟨cols⟩ := cs; rfl
  | Image img =>
    simp [encodeCardElement, Json.entries, CardElement.isColumnSet,
      countKey_cons, countKey_eq_zero (hasKey_type_image img)]
  | ActionSet acts =>
    simp [encodeCardElement, Json.entries, CardElement.isColumnSet,
      countKey_cons, countKey_eq_zero (hasKey_type_actionSet acts)]
  | FactSet fs =>
    simp [encodeCardElement, Json.entries, CardElement.isColumnSet,
      countKey_cons, countKey_eq_zero (hasKey_type_factSet fs)]
  | RichTextBlock r =>
    simp [encodeCardElement, Json.entries, CardElement.isColumnSet,
      countKey_cons, countKey_eq_zero (hasKey_type_richTextBlock r)]
  | InputText x =>
    simp [encodeCardElement, Json.entries, CardElement.isColumnSet,
      countKey_cons, countKey_eq_zero (hasKey_type_inputText x)]
  | InputNumber x =>
    simp [encodeCardElement, Json.entries, CardElement.isColumnSet,
      countKey_cons, countKey_eq_zero (hasKey_type_inputNumber x)]
  | InputDate x =>
    simp [encodeCardElement, Json.entries, CardElement.isColumnSet,
      countKey_cons, countKey_eq_zero (hasKey_type_inputDate x)]
  | InputTime x =>
    simp [encodeCardElement, Json.entries, CardElement.isColumnSet,
      countKey_cons, countKey_eq_zero (hasKey_type_inputTime x)]
  | InputToggle x =>
    simp [encodeCardElement, Json.entries, CardElement.isColumnSet,
      countKey_cons, countKey_eq_zero (hasKey_type_inputToggle x)]
  | InputChoiceSet x =>
    simp [encodeCardElement, Json.entries, CardElement.isColumnSet,
      countKey_cons, countKey_eq_zero (hasKey_type_inputChoiceSet x)]

/-- C7 counterexample: the `AssociatedInputs` tokens keep the Rust
variant spelling — `"Auto"` and `"None"`, not lower-camelCase — and the
lower-camel string `"auto"` is rejected. -/
theorem C7_counterexample :
    AssociatedInputs.token .Auto = "Auto" ∧
    AssociatedInputs.token .None = "None" ∧
    decodeAssociatedInputs (.str "auto") =
      .error (.invalidEnumLiteral "auto") := ⟨rfl, rfl, rfl⟩

/-- C7: for every enumerated literal type of the model, a string decodes
to a variant exactly when it is that variant's own wire token (the table
of §3: lower-camelCase except `AssociatedInputs`, which keeps the Rust
variant spelling). -/
theorem C7_token_tables :
    (∀ (v : TextSize) (s : String),
      decodeTextSize (.str s) = .ok v ↔ s = v.token) ∧
    (∀ (v : TextWeight) (s : String),
      decodeTextWeight (.str s) = .ok v ↔ s = v.token) ∧
    (∀ (v : Color) (s : String),
      decodeColor (.str s) = .ok v ↔ s = v.token) ∧
    (∀ (v : Spacing) (s : String),
      decodeSpacing (.str s) = .ok v ↔ s = v.token) ∧
    (∀ (v : ContainerStyle) (s : String),
      decodeContainerStyle (.str s) = .ok v ↔ s = v.token) ∧
    (∀ (v : ActionStyle) (s : String),
      decodeActionStyle (.str s) = .ok v ↔ s = v.token) ∧
    (∀ (v : ActionMode) (s : String),
      decodeActionMode (.str s) = .ok v ↔ s = v.token) ∧
    (∀ (v : AssociatedInputs) (s : String),
      decodeAssociatedInputs (.str s) = .ok v ↔ s = v.token) ∧
    (∀ (v : TextInputStyle) (s : String),
      decodeTextInputStyle (.str s) = .ok v ↔ s = v.token) ∧
    (∀ (v : ChoiceInputStyle) (s : String),
      decodeChoiceInputStyle (.str s) = .ok v ↔ s = v.token) ∧
    (∀ (v : Height) (s : String),
      decodeHeight (.str s) = .ok v ↔ s = v.token) ∧
    (∀ (v : FontType) (s : String),
      decodeFontType (.str s) = .ok v ↔ s = v.token) ∧
    (∀ (v : HorizontalAlignment) (s : String),
      decodeHorizontalAlignment (.str s) = .ok v ↔ s = v.token) ∧
    (∀ (v : VerticalContentAlignment) (s : String),
      decodeVerticalContentAlignment (.str s) = .ok v ↔ s = v.token) ∧
    (∀ (v : ImageSize) (s : String),
      decodeImageSize (.str s) = .ok v ↔ s = v.token) ∧
    (∀ (v : MsTeamsWidth) (s : String),
      decodeMsTeamsWidth (.str s) = .ok v ↔ s = v.token) :=
  ⟨fun v s => ⟨fun h => decodeTextSize_onlyToken h,
    fun h => by rw [h]; exact decode_token_textSize v⟩,
   fun v s => ⟨fun h => decodeTextWeight_onlyToken h,
    fun h => by rw [h]; exact decode_token_textWeight v⟩,
   fun v s => ⟨fun h => decodeColor_onlyToken h,
    fun h => by rw [h]; exact decode_token_color v⟩,
   fun v s => ⟨fun h => decodeSpacing_onlyToken h,
    fun h => by rw [h]; exact decode_token_spacing v⟩,
   fun v s => ⟨fun h => decodeContainerStyle_onlyToken h,
    fun h => by rw [h]; exact decode_token_containerStyle v⟩,
   fun v s => ⟨fun h => decodeActionStyle_onlyToken h,
    fun h => by rw [h]; exact decode_token_actionStyle v⟩,
   fun v s => ⟨fun h => decodeActionMode_onlyToken h,
    fun h => by rw [h]; exact decode_token_actionMode v⟩,
   fun v s => ⟨fun h => decodeAssociatedInputs_onlyToken h,
    fun h => by rw [h]; exact decode_token_associatedInputs v⟩,
   fun v s => ⟨fun h => decodeTextInputStyle_onlyToken h,
    fun h => by rw [h]; exact decode_token_textInputStyle v⟩,
   fun v s => ⟨fun h => decodeChoiceInputStyle_onlyToken h,
    fun h => by rw [h]; exact decode_token_choiceInputStyle v⟩,
   fun v s => ⟨fun h => decodeHeight_onlyToken h,
    fun h => by rw [h]; exact decode_token_height v⟩,
   fun v s => ⟨fun h => decodeFontType_onlyToken h,
    fun h => by rw [h]; exact decode_token_fontType v⟩,
   fun v s => ⟨fun h => decodeHorizontalAlignment_onlyToken h,
    fun h => by rw [h]; exact decode_token_horizontalAlignment v⟩,
   fun v s => ⟨fun h => decodeVerticalContentAlignment_onlyToken h,
    fun h => by rw [h]; exact decode_token_verticalContentAlignment v⟩,
   fun v s => ⟨fun h => decodeImageSize_onlyToken h,
    fun h => by rw [h]; exact decode_token_imageSize v⟩,
   fun v s => ⟨fun h => decodeMsTeamsWidth_onlyToken h,
    fun h => by rw [h]; exact decode_token_msTeamsWidth v⟩⟩

/-- Document whose `selectAction` holds a ShowCard action. -/
def showSelCard : AdaptiveCard :=
  .mk "s" .V1_2 [] none none
    (some (.ShowCard (.mk none
      (.mk "inner" .V1_2 [] none none none none none none none none)
      none none none none none none)))
    none none none none none

/-- C8 counterexample: a card whose `selectAction` holds the ShowCard
variant is constructible, and it encodes and decodes losslessly — the
model does not enforce the restriction. -/
theorem C8_counterexample :
    showSelCard.select_action =
      some (.ShowCard (.mk none
        (.mk "inner" .V1_2 [] none none none none none none none none)
        none none none none none none)) ∧
    decodeAdaptiveCard (encodeAdaptiveCard showSelCard) = .ok showSelCard :=
  ⟨rfl, rfl⟩

/-- C8: the `selectAction` field admits every action variant — for every
clean show-card action there is a representable card whose `selectAction`
holds it and which round-trips through encode and decode. -/
theorem C8_selectAction_unrestricted (sca : ShowCardAction)
    (h : cleanShowCard sca = true) :
    ∃ c : AdaptiveCard, c.select_action = some (.ShowCard sca) ∧
      decodeAdaptiveCard (encodeAdaptiveCard c) = .ok c := by
  refine ⟨.mk "s" .V1_2 [] none none (some (.ShowCard sca))
    none none none none none, rfl, ?_⟩
  apply decode_encode_card
  simp [cleanCard, cleanElements, cleanOptActions, cleanOptAction,
    cleanAction, h]

/-- C8 witness: a concrete show-card select action on a default inner
document. -/
theorem C8_witness :
    ∃ c : AdaptiveCard, c.select_action =
      some (.ShowCard (.mk none AdaptiveCard.default none none none none
        none none)) ∧
      decodeAdaptiveCard (encodeAdaptiveCard c) = .ok c :=
  C8_selectAction_unrestricted
    (.mk none AdaptiveCard.default none none none none none none) rfl

/-- C9 counterexample: a representable document whose schema marker is
the plain string `"x"`, not the fixed literal — and it survives encoding
and decoding unchanged, so the marker is not "always" the fixed value. -/
theorem C9_counterexample :
    decodeAdaptiveCard (encodeAdaptiveCard
      (.mk "x" .V1_2 [] none none none none none none none none)) =
      .ok (.mk "x" .V1_2 [] none none none none none none none none) := rfl

/-- C9: default construction sets the fixed schema literal; encoding
writes whatever schema string the document holds, verbatim, under
`"$schema"`; and decode-after-encode preserves both the schema string and
the exact order of the `body` elements (on the clean domain). -/
theorem C9_schema_and_body (c : AdaptiveCard) (h : cleanCard c = true) :
    AdaptiveCard.default.schema =
      "http://adaptivecards.io/schemas/adaptive-card.json" ∧
    List.lookup "$schema" (encodeAdaptiveCard c).entries =
      some (.str c.schema) ∧
    (decodeAdaptiveCard (encodeAdaptiveCard c)).map AdaptiveCard.schema =
      .ok c.schema ∧
    (decodeAdaptiveCard (encodeAdaptiveCard c)).map AdaptiveCard.body =
      .ok c.body := by
  refine ⟨rfl, ?_, ?_, ?_⟩
  · obtain ⟨schema, version, body, msteams, actions, sa, ft, mh, vca, rtl,
      lang⟩ := c
    simp [encodeAdaptiveCard, Json.entries, lookup_cons, AdaptiveCard.schema]
  · rw [decode_encode_card h]; rfl
  · rw [decode_encode_card h]; rfl

/-- C9 witness: the schema and body facts at the default document. -/
theorem C9_witness :
    List.lookup "$schema" (encodeAdaptiveCard AdaptiveCard.default).entries =
      some (.str AdaptiveCard.default.schema) ∧
    (decodeAdaptiveCard (encodeAdaptiveCard AdaptiveCard.default)).map
      AdaptiveCard.body = .ok AdaptiveCard.default.body :=
  ⟨(C9_schema_and_body AdaptiveCard.default rfl).2.1,
   (C9_schema_and_body AdaptiveCard.default rfl).2.2.2⟩

/-- C10: an optional field whose key is present with an explicit null
decodes to "no value": generically for every optional field (they all go
through `optD`), for the two action-valued field extractors with their
explicit null guards, and concretely for a root document and an open-url
action with every optional key set to null. -/
theorem C10_null_decodes_none :
    (∀ (α : Type) (dec : Json → D α), optD dec (some .null) = .ok none) ∧
    (∀ (m : Nat) (k : String) (o : List (String × Json)),
      o.lookup k = some .null → actionFieldF (m + 1) k o = .ok none) ∧
    (∀ (m : Nat) (k : String) (o : List (String × Json)),
      o.lookup k = some .null → actionsFieldF (m + 1) k o = .ok none) ∧
    decodeAdaptiveCard (.obj [("$schema", .str "s"), ("version", .str "1.2"),
      ("body", .arr []), ("msteams", .null), ("actions", .null),
      ("selectAction", .null), ("fallbackText", .null), ("minHeight", .null),
      ("verticalContentAlignment", .null), ("rtl", .null),
      ("lang", .null)]) =
      .ok (.mk "s" .V1_2 [] none none none none none none none none) ∧
    decodeOpenUrlAction [("url", .str "u"), ("title", .null), ("id", .null),
      ("iconUrl", .null), ("style", .null), ("tooltip", .null),
      ("isEnabled", .null), ("mode", .null)] =
      .ok ⟨none, "u", none, none, none, none, none, none⟩ := by
  refine ⟨fun α dec => optD_null dec, ?_, ?_, rfl, rfl⟩
  · intro m k o hlk
    simp [actionFieldF, hlk, Json.isNull]
  · intro m k o hlk
    simp [actionsFieldF, hlk, Json.isNull]

end ACard
